import Mathlib

/-!
Verification development for the galaxy game core (galaxy_core/models).

The Python source under src/models is shallowly embedded here:
  * Python values flowing through events are modeled by the inductive `Val`
    (dynamically typed values restricted to the shapes the code produces).
  * `datetime.now()` readings are modeled by an abstract clock value (`Nat`)
    passed explicitly to every operation that reads the clock.
  * Python floats are modeled as exact rationals (`Rat`); `int(x)` is
    truncation toward zero.
  * Python dictionaries are modeled as insertion-ordered association lists,
    Python sets of enum values as `Finset`.
  * A raised exception is modeled as `Except.error`; an ordinary boolean
    failure result as a returned `false`/`none`.
  * `random.*` draws are modeled as explicit oracle parameters.
-/

namespace Galaxy

/-- Model of the dynamically typed Python values that appear in event data
dictionaries in the embedded code. -/
inductive Val : Type where
  | vint : Int → Val
  | vrat : Rat → Val
  | vstr : String → Val
  | vbool : Bool → Val
  | vnone : Val
deriving DecidableEq, Repr

/-- Optional integer (for example an optional location id) as an event value:
Python `None` maps to `vnone`. -/
def optIntVal : Option Int → Val
  | none => Val.vnone
  | some i => Val.vint i

/-- Optional string as an event value. -/
def optStrVal : Option String → Val
  | none => Val.vnone
  | some s => Val.vstr s

/-- Model of `GameEvent` (base.py): the event type together with its data
dictionary.  The `source` back-reference and the wall-clock timestamp carried
by the Python dataclass are not modeled; no claim mentions them. -/
structure GameEvent : Type where
  event_type : String
  data : List (String × Val)
deriving DecidableEq, Repr

/-- Model of `EventPublisher._max_history_size` (base.py line 31). -/
def maxHistorySize : Nat := 100

/-- Model of `EventPublisher.publish_event` (base.py lines 51-79) restricted
to its effect on the event history: the event is appended and, when the
history then exceeds `maxHistorySize`, the oldest entry is evicted.
Subscriber notification has no effect on the publishing entity itself and is
not modeled. -/
def publishEvent (history : List GameEvent) (e : GameEvent) : List GameEvent :=
  let h := history ++ [e]
  if maxHistorySize < h.length then h.drop 1 else h

/-- The `"<field>_changed"` event that `BaseModel.__setattr__` publishes for a
tracked-field write (base.py lines 147-151). -/
def changedEvent (name : String) (oldv newv : Val) : GameEvent :=
  { event_type := name ++ "_changed"
  , data := [("field", Val.vstr name), ("old_value", oldv), ("new_value", newv)] }

/-- The event-publishing state every embedded entity carries: the dirty flag,
the `updated_at` timestamp and the bounded event history of its own
notification channel (base.py `BaseModel` / `EventPublisher`). -/
structure EvState : Type where
  is_dirty : Bool
  updated_at : Nat
  history : List GameEvent
deriving DecidableEq, Repr

/-- Fresh event state at clock reading `now` (a just-constructed entity). -/
def EvState.fresh (now : Nat) : EvState :=
  { is_dirty := false, updated_at := now, history := [] }

/-- Effect of `BaseModel._mark_dirty` plus the event publication performed by
a successful tracked-field write: dirty becomes true, `updated_at` is
refreshed, and the change event is published. -/
def EvState.trackedTouch (ev : EvState) (name : String) (oldv newv : Val)
    (now : Nat) : EvState :=
  { is_dirty := true
  , updated_at := now
  , history := publishEvent ev.history (changedEvent name oldv newv) }

/-- Publish an arbitrary event on an entity state (no dirty marking:
`publish_event` alone does not touch the dirty flag). -/
def EvState.pub (ev : EvState) (event_type : String)
    (data : List (String × Val)) : EvState :=
  { ev with history := publishEvent ev.history { event_type := event_type, data := data } }

/-! ## Generic tracked-attribute model (`BaseModel.__setattr__`, C1)

`BaseModel` intercepts every attribute assignment.  We model an entity after
initialization (so `_tracked_fields` exists) as an attribute dictionary plus
the set of tracked names and the event state. -/

/-- Attribute dictionary lookup (Python `getattr` on the instance dict). -/
def attrLookup (attrs : List (String × Val)) (name : String) : Option Val :=
  match attrs with
  | [] => none
  | (k, v) :: rest => if k = name then some v else attrLookup rest name

/-- Attribute dictionary store: replace in place when present, append
otherwise (Python instance-dict assignment). -/
def attrStore (attrs : List (String × Val)) (name : String) (v : Val) :
    List (String × Val) :=
  match attrs with
  | [] => [(name, v)]
  | (k, w) :: rest =>
      if k = name then (k, v) :: rest else (k, w) :: attrStore rest name v

/-- Does the first character list occur at the start of the second?  Used to
model `str.startswith` and the substring test `in`; kept list-based so it
reduces definitionally. -/
def listLeads : List Char → List Char → Bool
  | [], _ => true
  | _ :: _, [] => false
  | a :: as, b :: bs => a = b && listLeads as bs

/-- Model of `name.startswith('_')`. -/
def startsWithUnderscore (name : String) : Bool :=
  listLeads "_".toList name.toList

/-- The state of a `BaseModel` instance after `__init__` has run: its public
attribute dictionary, its `_tracked_fields`, and its event state.  Private
(underscore) attributes other than the modeled machinery are kept in the same
dictionary; `__setattr__` bypasses tracking for them. -/
structure BaseModelState : Type where
  attrs : List (String × Val)
  tracked : List String
  ev : EvState
deriving DecidableEq, Repr

/-- Model of `BaseModel.__setattr__` (base.py lines 134-153) on a
post-initialization instance (so the `hasattr(self, '_tracked_fields')` guard
is true).  `now` is the clock reading `_mark_dirty` would store. -/
def setattrModel (m : BaseModelState) (name : String) (v : Val) (now : Nat) :
    BaseModelState :=
  if startsWithUnderscore name then
    { m with attrs := attrStore m.attrs name v }
  else if (attrLookup m.attrs name).isSome ∧ name ∈ m.tracked then
    match attrLookup m.attrs name with
    | some oldv =>
        if oldv ≠ v then
          { m with
            attrs := attrStore m.attrs name v
            ev := m.ev.trackedTouch name oldv v now }
        else
          m
    | none => { m with attrs := attrStore m.attrs name v }
  else
    { m with attrs := attrStore m.attrs name v }

/-! ## `ModelCollection` (base.py lines 172-215, C9) -/

/-- A member of a `ModelCollection`: only the `id` attribute of `BaseModel`
matters to `add`; the `tag` stands for the rest of the entity. -/
structure ColModel : Type where
  id : Option Int
  tag : String
deriving DecidableEq, Repr

/-- Event record published by a collection; its data dictionary holds models
(`{"model": model}`). -/
structure CollEvent : Type where
  event_type : String
  data : List (String × ColModel)
deriving DecidableEq, Repr

/-- Model of `ModelCollection`: the id-keyed model dictionary plus the
collection's own event history (the collection is itself an
`EventPublisher`). -/
structure ModelCollection : Type where
  models : List (Int × ColModel)
  history : List CollEvent
deriving DecidableEq, Repr

/-- Bounded history append for collection events (same `publish_event`
mechanism as `publishEvent`). -/
def collPublish (history : List CollEvent) (e : CollEvent) : List CollEvent :=
  let h := history ++ [e]
  if maxHistorySize < h.length then h.drop 1 else h

/-- Keyed-dictionary store for collections (`self._models[model.id] = model`). -/
def colStore (models : List (Int × ColModel)) (k : Int) (m : ColModel) :
    List (Int × ColModel) :=
  match models with
  | [] => [(k, m)]
  | (k0, m0) :: rest =>
      if k0 = k then (k0, m) :: rest else (k0, m0) :: colStore rest k m

/-- Model of `ModelCollection.add` (base.py lines 180-186).  The Python code
raises `ValueError` when the model has no id; a raised exception is embedded
as `Except.error` carrying the exception text. -/
def collectionAdd (c : ModelCollection) (m : ColModel) :
    Except String ModelCollection :=
  match m.id with
  | none => Except.error "ValueError: Cannot add model without ID to collection"
  | some i =>
      Except.ok
        { models := colStore c.models i m
        , history := collPublish c.history { event_type := "model_added", data := [("model", m)] } }

/-! ## `Character` (character.py, C3 and C6)

Only the fields read or written by the embedded operations are modeled;
inventory, per-skill levels and the five core stats are untouched by the
claimed operations and are omitted.  Fields tracked for change events
(character.py lines 104-109) get dedicated tracked setters that mirror
`__setattr__`: store, mark dirty, publish `"<field>_changed"` when the value
differs, and do nothing otherwise.  The remaining fields are untracked, so
plain record updates (which neither mark dirty nor publish) are faithful. -/

/-- Model of the `Alignment` enum (character.py). -/
inductive Alignment : Type where
  | loyal
  | neutral
  | bandit
deriving DecidableEq, Repr

/-- String value of an alignment (the enum value). -/
def Alignment.value : Alignment → String
  | loyal => "loyal"
  | neutral => "neutral"
  | bandit => "bandit"

/-- Model of the `LocationStatus` enum (character.py). -/
inductive LocationStatus : Type where
  | docked
  | traveling
  | in_combat
  | in_ship
  | exploring
deriving DecidableEq, Repr

/-- Model of `Character` state: the scalar fields read or written by
`take_damage`, `_handle_death`, `add_credits` and `respawn`. -/
structure Character : Type where
  player_ref : String
  name : String
  current_location : Option Int
  credits : Int
  ship_fuel : Int
  ship_hull : Int
  max_ship_hull : Int
  karma : Int
  wanted_level : Int
  alignment : Alignment
  location_status : LocationStatus
  is_alive : Bool
  death_count : Nat
  last_death_time : Option Nat
  experience : Int
  level : Int
  ev : EvState
deriving DecidableEq, Repr

/-- Tracked assignment `self.credits = v` on a character (`credits` is a
tracked field, character.py line 105). -/
def Character.setCredits (c : Character) (v : Int) (now : Nat) : Character :=
  if v = c.credits then c
  else
    { c with
      credits := v
      ev := c.ev.trackedTouch "credits" (Val.vint c.credits) (Val.vint v) now }

/-- Tracked assignment `self.is_alive = v` (tracked field, line 106). -/
def Character.setIsAlive (c : Character) (v : Bool) (now : Nat) : Character :=
  if v = c.is_alive then c
  else
    { c with
      is_alive := v
      ev := c.ev.trackedTouch "is_alive" (Val.vbool c.is_alive) (Val.vbool v) now }

/-- Tracked assignment `self.current_location = v` (tracked field, line 104). -/
def Character.setCurrentLocation (c : Character) (v : Option Int) (now : Nat) :
    Character :=
  if v = c.current_location then c
  else
    { c with
      current_location := v
      ev := c.ev.trackedTouch "current_location"
        (optIntVal c.current_location) (optIntVal v) now }

/-- Publish an event on a character's channel. -/
def Character.pub (c : Character) (event_type : String)
    (data : List (String × Val)) : Character :=
  { c with ev := c.ev.pub event_type data }

/-- Model of `Character.add_credits` (character.py lines 128-142).  Returns
the Python boolean result together with the updated character. -/
def addCredits (c : Character) (amount : Int) (now : Nat) : Bool × Character :=
  if amount < 0 ∧ c.credits + amount < 0 then
    (false, c)
  else
    let c1 := c.setCredits (c.credits + amount) now
    let c2 :=
      if 1000 < |amount| then
        c1.pub "major_transaction"
          [("amount", Val.vint amount), ("new_balance", Val.vint c1.credits)]
      else c1
    (true, c2)

/-- Model of `Character._handle_death` (character.py lines 179-199).
`int(self.credits * 0.1)` truncates the exact product toward zero, which on
integers is `Int.tdiv` by 10. -/
def handleDeath (c : Character) (cause : Option String) (now : Nat) : Character :=
  let c1 := c.setIsAlive false now
  let c2 := { c1 with death_count := c1.death_count + 1, last_death_time := some now }
  let credits_lost := c2.credits.tdiv 10
  let c3 := c2.setCredits (max 0 (c2.credits - credits_lost)) now
  let c4 := { c3 with ship_hull := 0, ship_fuel := 0 }
  c4.pub "character_died"
    [("cause", optStrVal cause), ("death_count", Val.vint c4.death_count),
     ("credits_lost", Val.vint credits_lost),
     ("location", optIntVal c4.current_location)]

/-- Model of `Character.take_damage` (character.py lines 144-160). -/
def takeDamage (c : Character) (damage : Int) (source : Option String)
    (now : Nat) : Bool × Character :=
  if c.is_alive = false then
    (false, c)
  else
    let c1 := { c with ship_hull := max 0 (c.ship_hull - damage) }
    let c2 := c1.pub "damage_taken"
      [("damage", Val.vint damage), ("remaining_hull", Val.vint c1.ship_hull),
       ("source", optStrVal source)]
    let c3 := if c2.ship_hull ≤ 0 then handleDeath c2 source now else c2
    (true, c3)

/-! ## `Ship` (ship.py, C2, C4 and C5) -/

/-- Generic insertion-ordered dictionary lookup. -/
def assocFind {κ α : Type} [DecidableEq κ] (l : List (κ × α)) (k : κ) : Option α :=
  match l with
  | [] => none
  | (k0, a) :: rest => if k0 = k then some a else assocFind rest k

/-- Generic insertion-ordered dictionary store (`d[k] = a`): replace in place
when the key is present, append otherwise. -/
def assocStore {κ α : Type} [DecidableEq κ] (l : List (κ × α)) (k : κ) (a : α) :
    List (κ × α) :=
  match l with
  | [] => [(k, a)]
  | (k0, a0) :: rest =>
      if k0 = k then (k0, a) :: rest else (k0, a0) :: assocStore rest k a

/-- Generic dictionary key removal (`d.pop(k)`; under the unique-key dict
invariant removing every entry with key `k` is the same operation). -/
def assocErase {κ α : Type} [DecidableEq κ] (l : List (κ × α)) (k : κ) :
    List (κ × α) :=
  l.filter fun p => p.1 ≠ k

/-- Truncation toward zero of an exact rational: the model of Python `int(x)`
applied to a float. -/
def ratTrunc (q : Rat) : Int :=
  if 0 ≤ q then Int.floor q else Int.ceil q

/-- Model of the `ShipType` enum (ship.py). -/
inductive ShipType : Type where
  | shuttle
  | fighter
  | freighter
  | explorer
  | corvette
  | cruiser
  | carrier
  | special
deriving DecidableEq, Repr

/-- Model of the `ShipUpgradeType` enum (ship.py). -/
inductive ShipUpgradeType : Type where
  | engine
  | shield
  | weapon
  | cargo
  | fuel
  | hull
  | scanner
  | special
deriving DecidableEq, Repr

/-- String value of an upgrade type (the enum value). -/
def ShipUpgradeType.value : ShipUpgradeType → String
  | engine => "engine"
  | shield => "shield"
  | weapon => "weapon"
  | cargo => "cargo"
  | fuel => "fuel"
  | hull => "hull"
  | scanner => "scanner"
  | special => "special"

/-- Model of the `ShipUpgrade` dataclass (ship.py lines 35-45). -/
structure ShipUpgrade : Type where
  upgrade_id : String
  name : String
  upgrade_type : ShipUpgradeType
  level : Int
  bonus_value : Rat
  description : String
  power_requirement : Int
  mass : Rat
deriving DecidableEq, Repr

/-- Model of the `ShipStats` dataclass (ship.py lines 47-63).  Numeric fields
are modeled as rationals (Python ints embed into the exact-real model of
floats). -/
structure ShipStats : Type where
  max_speed : Rat
  acceleration : Rat
  maneuverability : Rat
  shield_strength : Rat
  weapon_power : Rat
  targeting_accuracy : Rat
  scanner_range : Rat
  stealth_rating : Rat
  power_generation : Rat
deriving DecidableEq, Repr

/-- The `ShipStats` dataclass defaults. -/
def defaultShipStats : ShipStats :=
  { max_speed := 100, acceleration := 50, maneuverability := 50
  , shield_strength := 0, weapon_power := 10, targeting_accuracy := 70
  , scanner_range := 100, stealth_rating := 0, power_generation := 100 }

/-- The keyword parameters accepted by the generated `ShipStats.__init__`:
exactly the dataclass fields. -/
def shipStatsFieldNames : List String :=
  ["max_speed", "acceleration", "maneuverability", "shield_strength",
   "weapon_power", "targeting_accuracy", "scanner_range", "stealth_rating",
   "power_generation"]

/-- Store one keyword argument into a `ShipStats` record.  Only called for
keywords validated against `shipStatsFieldNames`. -/
def setShipStatsField (st : ShipStats) (k : String) (v : Rat) : ShipStats :=
  if k = "max_speed" then { st with max_speed := v }
  else if k = "acceleration" then { st with acceleration := v }
  else if k = "maneuverability" then { st with maneuverability := v }
  else if k = "shield_strength" then { st with shield_strength := v }
  else if k = "weapon_power" then { st with weapon_power := v }
  else if k = "targeting_accuracy" then { st with targeting_accuracy := v }
  else if k = "scanner_range" then { st with scanner_range := v }
  else if k = "stealth_rating" then { st with stealth_rating := v }
  else if k = "power_generation" then { st with power_generation := v }
  else st

/-- Model of a `ShipStats(...)` constructor call with keyword arguments:
an unexpected keyword makes the generated `__init__` raise `TypeError`. -/
def mkShipStats (kwargs : List (String × Rat)) : Except String ShipStats :=
  if kwargs.all fun kv => shipStatsFieldNames.contains kv.1 then
    Except.ok (kwargs.foldl (fun st kv => setShipStatsField st kv.1 kv.2) defaultShipStats)
  else
    Except.error "TypeError: unexpected keyword argument"

/-- One entry of the `ship_configs` table of `_initialize_ship_stats`. -/
structure ShipConfig : Type where
  cargo_capacity : Int
  fuel_capacity : Int
  max_hull_points : Int
  base_stats : ShipStats
deriving DecidableEq, Repr

/-- Model of the `ship_configs` dictionary literal in
`Ship._initialize_ship_stats` (ship.py lines 124-167).  Python evaluates
every value of a dict literal before the dict exists, so every
`ShipStats(...)` call in the table runs on each evaluation; the explorer
entry passes the keyword `fuel_efficiency`, which `ShipStats` does not
declare. -/
def shipConfigs : Except String (List (ShipType × ShipConfig)) := do
  let shuttleStats ← mkShipStats [("max_speed", 80), ("maneuverability", 70)]
  let fighterStats ← mkShipStats
    [("max_speed", 150), ("maneuverability", 90), ("weapon_power", 30)]
  let freighterStats ← mkShipStats
    [("max_speed", 60), ("maneuverability", 30), ("shield_strength", 20)]
  let explorerStats ← mkShipStats
    [("scanner_range", 200), ("fuel_efficiency", 1.5)]
  let corvetteStats ← mkShipStats
    [("max_speed", 120), ("weapon_power", 25), ("shield_strength", 15)]
  let cruiserStats ← mkShipStats
    [("weapon_power", 40), ("shield_strength", 30), ("power_generation", 150)]
  let carrierStats ← mkShipStats
    [("max_speed", 40), ("shield_strength", 50), ("power_generation", 200)]
  Except.ok
    [ (ShipType.shuttle,
       { cargo_capacity := 50, fuel_capacity := 80, max_hull_points := 50
       , base_stats := shuttleStats })
    , (ShipType.fighter,
       { cargo_capacity := 20, fuel_capacity := 100, max_hull_points := 80
       , base_stats := fighterStats })
    , (ShipType.freighter,
       { cargo_capacity := 200, fuel_capacity := 150, max_hull_points := 150
       , base_stats := freighterStats })
    , (ShipType.explorer,
       { cargo_capacity := 100, fuel_capacity := 200, max_hull_points := 100
       , base_stats := explorerStats })
    , (ShipType.corvette,
       { cargo_capacity := 80, fuel_capacity := 120, max_hull_points := 120
       , base_stats := corvetteStats })
    , (ShipType.cruiser,
       { cargo_capacity := 150, fuel_capacity := 180, max_hull_points := 200
       , base_stats := cruiserStats })
    , (ShipType.carrier,
       { cargo_capacity := 300, fuel_capacity := 250, max_hull_points := 300
       , base_stats := carrierStats }) ]

/-- Model of `Ship._initialize_ship_stats` (ship.py lines 122-177) up to the
configuration it would select: build the table, then
`ship_configs.get(self.ship_type, ship_configs[ShipType.SHUTTLE])`. -/
def initShipStats (t : ShipType) : Except String ShipConfig := do
  let configs ← shipConfigs
  match assocFind configs t with
  | some c => Except.ok c
  | none =>
      match assocFind configs ShipType.shuttle with
      | some c => Except.ok c
      | none => Except.error "KeyError: ShipType.SHUTTLE"

/-- Model of the `damage_report` dictionary (ship.py lines 108-114): the five
subsystems, each a degradation fraction. -/
structure DamageReport : Type where
  hull : Rat
  engine : Rat
  weapons : Rat
  shields : Rat
  life_support : Rat
deriving DecidableEq, Repr

/-- The keys of `damage_report`, in insertion order. -/
def damageReportKeys : List String :=
  ["hull", "engine", "weapons", "shields", "life_support"]

/-- Read a subsystem entry by key (callers only pass keys from
`damageReportKeys`; the fallback is unreachable). -/
def DamageReport.get (d : DamageReport) (k : String) : Rat :=
  if k = "hull" then d.hull
  else if k = "engine" then d.engine
  else if k = "weapons" then d.weapons
  else if k = "shields" then d.shields
  else if k = "life_support" then d.life_support
  else 0

/-- Write a subsystem entry by key (same key discipline as `get`). -/
def DamageReport.set (d : DamageReport) (k : String) (v : Rat) : DamageReport :=
  if k = "hull" then { d with hull := v }
  else if k = "engine" then { d with engine := v }
  else if k = "weapons" then { d with weapons := v }
  else if k = "shields" then { d with shields := v }
  else if k = "life_support" then { d with life_support := v }
  else d

/-- Model of `Ship` state: the fields read or written by the embedded
operations. -/
structure Ship : Type where
  owner_id : Int
  name : String
  ship_type : ShipType
  cargo_capacity : Int
  fuel_capacity : Int
  max_hull_points : Int
  base_stats : ShipStats
  hull_points : Int
  fuel : Int
  upgrades : List (String × ShipUpgrade)
  engine_level : Int
  shield_level : Int
  weapon_level : Int
  power_available : Int
  power_used : Int
  docked_at_location : Option Int
  is_active : Bool
  damage_report : DamageReport
  ev : EvState
deriving DecidableEq, Repr

/-- Tracked assignment `self.hull_points = v` (tracked field, ship.py
line 117). -/
def Ship.setHullPoints (s : Ship) (v : Int) (now : Nat) : Ship :=
  if v = s.hull_points then s
  else
    { s with
      hull_points := v
      ev := s.ev.trackedTouch "hull_points" (Val.vint s.hull_points) (Val.vint v) now }

/-- Tracked assignment `self.is_active = v` (tracked field, ship.py
line 120). -/
def Ship.setIsActive (s : Ship) (v : Bool) (now : Nat) : Ship :=
  if v = s.is_active then s
  else
    { s with
      is_active := v
      ev := s.ev.trackedTouch "is_active" (Val.vbool s.is_active) (Val.vbool v) now }

/-- Publish an event on a ship's channel. -/
def Ship.pub (s : Ship) (event_type : String) (data : List (String × Val)) :
    Ship :=
  { s with ev := s.ev.pub event_type data }

/-- Model of `Ship._apply_system_damage` (ship.py lines 332-352).  The two
`random` draws are oracle parameters: `rsys` is the index
`random.choice(list(self.damage_report.keys()))` would pick and `runi` the
value of `random.uniform(0.05, 0.15)`. -/
def applySystemDamage (s : Ship) (damage_type : String) (rsys : Fin 5)
    (runi : Rat) : Ship :=
  let system :=
    if damage_type = "general" then damageReportKeys.getD rsys.val "hull"
    else if damageReportKeys.contains damage_type then damage_type
    else "hull"
  let newLevel := min 1 (s.damage_report.get system + runi)
  let s1 := { s with damage_report := s.damage_report.set system newLevel }
  if 1/2 < s1.damage_report.get system then
    s1.pub "system_damaged"
      [("system", Val.vstr system),
       ("damage_level", Val.vrat (s1.damage_report.get system * 100))]
  else s1

/-- The tail of `Ship.apply_damage` (ship.py lines 312-328), run after the
hull write when positive damage reached the hull: possible system damage,
destruction, and the hull-critical warning.  `s2` is the ship with the hull
already reduced. -/
def applyDamageAfterHull (s2 : Ship) (actual : Int) (damage_type : String)
    (rsys : Fin 5) (runi : Rat) (now : Nat) : Ship :=
  let hull_percentage : Rat := (s2.hull_points : Rat) / (s2.max_hull_points : Rat)
  let s3 :=
    if hull_percentage < 1/2 then applySystemDamage s2 damage_type rsys runi
    else s2
  if s3.hull_points = 0 then
    (s3.setIsActive false now).pub "ship_destroyed"
      [("final_damage", Val.vint actual), ("damage_type", Val.vstr damage_type)]
  else if hull_percentage < 1/5 then
    s3.pub "hull_critical"
      [("hull_remaining", Val.vint s3.hull_points),
       ("percentage", Val.vrat (hull_percentage * 100))]
  else s3

/-- Model of `Ship.apply_damage` (ship.py lines 292-330), returning the
Python return value (the damage that reached the hull) and the new ship
state.  `rsys`/`runi` are the oracle parameters of the possible
`_apply_system_damage` call. -/
def applyDamage (s : Ship) (damage : Int) (damage_type : String) (rsys : Fin 5)
    (runi : Rat) (now : Nat) : Int × Ship :=
  let absorbed :=
    if 0 < s.shield_level ∧ damage_type ≠ "bypass" then
      min damage (s.shield_level * 10)
    else 0
  let actual := damage - absorbed
  let s1 :=
    if 0 < s.shield_level ∧ damage_type ≠ "bypass" then
      if 0 < absorbed then
        s.pub "shields_hit"
          [("absorbed", Val.vint absorbed), ("remaining_damage", Val.vint actual)]
      else s
    else s
  if 0 < actual then
    let s2 := s1.setHullPoints (max 0 (s1.hull_points - actual)) now
    (actual, applyDamageAfterHull s2 actual damage_type rsys runi now)
  else
    (actual, s1)

/-- One iteration of the `_recalculate_upgrade_levels` loop (ship.py lines
458-464): fold an installed upgrade into the three category levels. -/
def upgradeLevelStep (acc : Ship) (p : String × ShipUpgrade) : Ship :=
  match p.2.upgrade_type with
  | ShipUpgradeType.engine =>
      { acc with engine_level := max acc.engine_level p.2.level }
  | ShipUpgradeType.shield =>
      { acc with shield_level := max acc.shield_level p.2.level }
  | ShipUpgradeType.weapon =>
      { acc with weapon_level := max acc.weapon_level p.2.level }
  | _ => acc

/-- Model of `Ship._recalculate_upgrade_levels` (ship.py lines 452-464):
reset the three levels to their defaults, then take the maximum level among
installed upgrades of each category. -/
def recalcUpgradeLevels (s : Ship) : Ship :=
  s.upgrades.foldl upgradeLevelStep
    { s with engine_level := 1, shield_level := 0, weapon_level := 1 }

/-- The stat reversion of `remove_upgrade` (ship.py lines 436-440): cargo and
fuel upgrades give back their capacity bonus. -/
def revertUpgradeStats (s1 : Ship) (u : ShipUpgrade) : Ship :=
  match u.upgrade_type with
  | ShipUpgradeType.cargo =>
      { s1 with cargo_capacity := s1.cargo_capacity - ratTrunc u.bonus_value }
  | ShipUpgradeType.fuel =>
      { s1 with fuel_capacity := s1.fuel_capacity - ratTrunc u.bonus_value }
  | _ => s1

/-- Model of `Ship.remove_upgrade` (ship.py lines 428-450), returning the
Python return value (the removed upgrade, if any) and the new ship state. -/
def removeUpgrade (s : Ship) (upgrade_id : String) (_now : Nat) :
    Option ShipUpgrade × Ship :=
  match assocFind s.upgrades upgrade_id with
  | none => (none, s)
  | some u =>
      let s1 :=
        { s with
          upgrades := assocErase s.upgrades upgrade_id
          power_used := s.power_used - u.power_requirement }
      let s2 := revertUpgradeStats s1 u
      let s3 := recalcUpgradeLevels s2
      let s4 := s3.pub "upgrade_removed"
        [("upgrade_name", Val.vstr u.name),
         ("upgrade_type", Val.vstr u.upgrade_type.value)]
      (some u, s4)

/-- The stat update of `add_upgrade` (ship.py lines 408-418): levels rise to
the maximum with the new upgrade's level, cargo and fuel upgrades add their
capacity bonus. -/
def applyUpgradeStats (s2 : Ship) (u : ShipUpgrade) : Ship :=
  match u.upgrade_type with
  | ShipUpgradeType.engine =>
      { s2 with engine_level := max s2.engine_level u.level }
  | ShipUpgradeType.shield =>
      { s2 with shield_level := max s2.shield_level u.level }
  | ShipUpgradeType.weapon =>
      { s2 with weapon_level := max s2.weapon_level u.level }
  | ShipUpgradeType.cargo =>
      { s2 with cargo_capacity := s2.cargo_capacity + ratTrunc u.bonus_value }
  | ShipUpgradeType.fuel =>
      { s2 with fuel_capacity := s2.fuel_capacity + ratTrunc u.bonus_value }
  | _ => s2

/-- Model of `Ship.add_upgrade` (ship.py lines 388-426), returning the Python
boolean result and the new ship state. -/
def addUpgrade (s : Ship) (u : ShipUpgrade) (now : Nat) : Bool × Ship :=
  if s.power_available < s.power_used + u.power_requirement then
    (false, s)
  else
    let old := s.upgrades.find? fun p => p.2.upgrade_type == u.upgrade_type
    let s1 :=
      match old with
      | some p => (removeUpgrade s p.2.upgrade_id now).2
      | none => s
    let s2 :=
      { s1 with
        upgrades := assocStore s1.upgrades u.upgrade_id u
        power_used := s1.power_used + u.power_requirement }
    let s3 := applyUpgradeStats s2 u
    let s4 := s3.pub "upgrade_installed"
      [("upgrade_name", Val.vstr u.name),
       ("upgrade_type", Val.vstr u.upgrade_type.value),
       ("level", Val.vint u.level)]
    (true, s4)

/-- Model of constructing a `Ship` (ship.py `Ship.__init__`, lines 69-121):
the constructor runs `_initialize_ship_stats`, whose config-table evaluation
may raise; on success the remaining fields are the literal initial values of
`__init__`. -/
def shipNew (_ship_id : Option Int) (owner_id : Int) (name : String)
    (t : ShipType) (now : Nat) : Except String Ship := do
  let config ← initShipStats t
  Except.ok
    { owner_id := owner_id
    , name := name
    , ship_type := t
    , cargo_capacity := config.cargo_capacity
    , fuel_capacity := config.fuel_capacity
    , max_hull_points := config.max_hull_points
    , base_stats := config.base_stats
    , hull_points := config.max_hull_points
    , fuel := config.fuel_capacity
    , upgrades := []
    , engine_level := 1
    , shield_level := 0
    , weapon_level := 1
    , power_available := 100
    , power_used := 0
    , docked_at_location := none
    , is_active := true
    , damage_report :=
        { hull := 0, engine := 0, weapons := 0, shields := 0, life_support := 0 }
    , ev := EvState.fresh now }

/-! ## `Location` (location.py, C7) -/

/-- Model of the `LocationType` enum (location.py). -/
inductive LocationType : Type where
  | colony
  | space_station
  | outpost
  | gate
  | derelict
  | hidden
deriving DecidableEq, Repr

/-- String value of a location type (the enum value). -/
def LocationType.value : LocationType → String
  | colony => "colony"
  | space_station => "space_station"
  | outpost => "outpost"
  | gate => "gate"
  | derelict => "derelict"
  | hidden => "hidden"

/-- Model of the `Service` enum (location.py). -/
inductive Service : Type where
  | jobs
  | shops
  | medical
  | repairs
  | fuel
  | upgradesSvc
  | black_market
  | federal_supplies
  | shipyard
  | bank
  | comms
  | homes
deriving DecidableEq, Repr

/-- String value of a service (the enum value). -/
def Service.value : Service → String
  | jobs => "jobs"
  | shops => "shops"
  | medical => "medical"
  | repairs => "repairs"
  | fuel => "fuel"
  | upgradesSvc => "upgrades"
  | black_market => "black_market"
  | federal_supplies => "federal_supplies"
  | shipyard => "shipyard"
  | bank => "bank"
  | comms => "comms"
  | homes => "homes"

/-- Every member of the `Service` enum, in declaration order. -/
def serviceList : List Service :=
  [Service.jobs, Service.shops, Service.medical, Service.repairs, Service.fuel,
   Service.upgradesSvc, Service.black_market, Service.federal_supplies,
   Service.shipyard, Service.bank, Service.comms, Service.homes]

/-- Model of `Location` state: the fields read or written by the embedded
operations (coordinates, faction and the economic factors are untouched by
the claimed operations and are omitted). -/
structure Location : Type where
  name : String
  location_type : LocationType
  wealth_level : Int
  population : Int
  description : String
  services : Finset Service
  is_derelict : Bool
  ev : EvState
deriving DecidableEq

/-- The basic-services step of `Location._initialize_services` (location.py
lines 94-97): all locations except derelicts get jobs and comms. -/
def initBaseServices (t : LocationType) (s : Finset Service) : Finset Service :=
  if t ≠ LocationType.derelict
    then insert Service.comms (insert Service.jobs s) else s

/-- The wealth-based step of `Location._initialize_services` (location.py
lines 99-110). -/
def initWealthServices (wealth : Int) (s : Finset Service) : Finset Service :=
  let s := if 3 ≤ wealth
    then insert Service.fuel (insert Service.shops s) else s
  let s := if 5 ≤ wealth
    then insert Service.repairs (insert Service.medical s) else s
  if 7 ≤ wealth
    then insert Service.bank (insert Service.upgradesSvc s) else s

/-- The type-specific step of `Location._initialize_services` (location.py
lines 112-126). -/
def initTypeServices (t : LocationType) (wealth : Int) (s : Finset Service) :
    Finset Service :=
  if t = LocationType.colony then
    let s := insert Service.homes s
    if 6 ≤ wealth then insert Service.shipyard s else s
  else if t = LocationType.space_station then
    let s := insert Service.fuel (insert Service.repairs s)
    if 8 ≤ wealth then insert Service.federal_supplies s else s
  else if t = LocationType.outpost then
    if wealth ≤ 4 then insert Service.black_market s else s
  else s

/-- Model of `Location._initialize_services` (location.py lines 92-126).  The
Python method adds services into the current `self._services` set without
clearing it, so the current set is a parameter. -/
def initServices (services : Finset Service) (t : LocationType)
    (wealth : Int) : Finset Service :=
  initTypeServices t wealth (initWealthServices wealth (initBaseServices t services))

/-- Model of constructing a `Location` (location.py `Location.__init__`,
lines 52-90): services are initialized from the empty set, `is_derelict`
starts false. -/
def locationNew (name : String) (t : LocationType) (wealth : Int)
    (population : Int) (description : Option String) (now : Nat) : Location :=
  { name := name
  , location_type := t
  , wealth_level := wealth
  , population := population
  , description :=
      match description with
      | some d => d
      | none => "A " ++ t.value ++ " in the galaxy"
  , services := initServices ∅ t wealth
  , is_derelict := false
  , ev := EvState.fresh now }

/-- Tracked assignment `self.population = v` (tracked field, location.py
line 88). -/
def Location.setPopulation (l : Location) (v : Int) (now : Nat) : Location :=
  if v = l.population then l
  else
    { l with
      population := v
      ev := l.ev.trackedTouch "population" (Val.vint l.population) (Val.vint v) now }

/-- Tracked assignment `self.is_derelict = v` (tracked field, location.py
line 89). -/
def Location.setIsDerelict (l : Location) (v : Bool) (now : Nat) : Location :=
  if v = l.is_derelict then l
  else
    { l with
      is_derelict := v
      ev := l.ev.trackedTouch "is_derelict" (Val.vbool l.is_derelict) (Val.vbool v) now }

/-- Publish an event on a location's channel. -/
def Location.pub (l : Location) (event_type : String)
    (data : List (String × Val)) : Location :=
  { l with ev := l.ev.pub event_type data }

/-- Model of `Location.remove_service` (location.py lines 142-146). -/
def removeService (l : Location) (svc : Service) : Location :=
  if svc ∈ l.services then
    { l with services := l.services.erase svc }.pub "service_removed"
      [("service", Val.vstr svc.value)]
  else l

/-- The removal loop of `set_derelict` (location.py lines 201-204): remove
every currently held service other than comms.  Python iterates over a
snapshot of the set (in unspecified set order); iterating over all enum
members and letting `remove_service` skip the absent ones removes the same
services and publishes the same events, in the canonical enum order. -/
def stripServices (l : Location) : Location :=
  serviceList.foldl
    (fun acc svc => if svc ≠ Service.comms then removeService acc svc else acc) l

/-- Does the character list `needle` occur anywhere inside `hay`? -/
def listHasSub (needle : List Char) : List Char → Bool
  | [] => listLeads needle []
  | c :: rest => listLeads needle (c :: rest) || listHasSub needle rest

/-- ASCII lower-casing of one character (the fragment of `str.lower()` the
embedded descriptions exercise). -/
def lowerChar (c : Char) : Char :=
  if 65 ≤ c.toNat ∧ c.toNat ≤ 90 then Char.ofNat (c.toNat + 32) else c

/-- Model of the Python test `needle in hay.lower()`. -/
def strHasSubLower (needle hay : String) : Bool :=
  listHasSub needle.toList (hay.toList.map lowerChar)

/-- The description update of `set_derelict` (location.py lines 209-211):
prepend "Abandoned" unless the description already mentions dereliction. -/
def derelictDescribe (l3 : Location) : Location :=
  if strHasSubLower "derelict" l3.description then l3
  else { l3 with description := "Abandoned " ++ l3.description }

/-- Model of `Location.set_derelict` (location.py lines 195-214). -/
def setDerelict (l : Location) (is_derelict : Bool) (now : Nat) : Location :=
  let l1 := l.setIsDerelict is_derelict now
  if is_derelict then
    derelictDescribe ((stripServices l1).setPopulation 0 now)
  else
    { l1 with
      services := initServices l1.services l1.location_type l1.wealth_level }

/-! ## NPCs (npc.py, C8 and C10) -/

/-- Model of the `NPCPersonality` enum (npc.py). -/
inductive NPCPersonality : Type where
  | friendly
  | neutral
  | hostile
  | mysterious
  | merchant
  | guard
  | criminal
  | scientist
  | pilot
deriving DecidableEq, Repr

/-- Every member of the `NPCPersonality` enum. -/
def npcPersonalityList : List NPCPersonality :=
  [NPCPersonality.friendly, NPCPersonality.neutral, NPCPersonality.hostile,
   NPCPersonality.mysterious, NPCPersonality.merchant, NPCPersonality.guard,
   NPCPersonality.criminal, NPCPersonality.scientist, NPCPersonality.pilot]

/-- Model of the `NPCOccupation` enum (npc.py). -/
inductive NPCOccupation : Type where
  | trader
  | bartender
  | mechanic
  | doctor
  | security
  | miner
  | smuggler
  | pilot
  | researcher
  | mercenary
deriving DecidableEq, Repr

/-- Every member of the `NPCOccupation` enum. -/
def npcOccupationList : List NPCOccupation :=
  [NPCOccupation.trader, NPCOccupation.bartender, NPCOccupation.mechanic,
   NPCOccupation.doctor, NPCOccupation.security, NPCOccupation.miner,
   NPCOccupation.smuggler, NPCOccupation.pilot, NPCOccupation.researcher,
   NPCOccupation.mercenary]

/-- Model of `BaseModel.validate` (base.py lines 155-158): the abstract
method's body is `pass`, so calling it through `super().validate()` returns
Python `None`; `none` embeds that. -/
def baseModelValidate : Option Bool := none

/-- Python truthiness of an optional boolean (`None` is falsy). -/
def pyTruthyOptBool : Option Bool → Bool
  | none => false
  | some b => b

/-- Python truthiness of an optional enum value (enum members are truthy,
`None` is falsy). -/
def pyTruthyOpt {α : Type} : Option α → Bool :=
  Option.isSome

/-- Python truthiness of an optional integer: `None` and `0` are falsy. -/
def pyTruthyOptInt : Option Int → Bool
  | none => false
  | some i => decide (i ≠ 0)

/-- Model of `StaticNPC` state: the fields its `validate` chain reads. -/
structure StaticNPC : Type where
  name : String
  age : Int
  alignment : Alignment
  hp : Int
  max_hp : Int
  is_alive : Bool
  credits : Int
  location_id : Option Int
  occupation : Option NPCOccupation
  personality : NPCPersonality
  ev : EvState
deriving DecidableEq, Repr

/-- Model of `StaticNPC.validate` (npc.py lines 370-381).  The first guard is
`if not super().validate(): return False`; `BaseNPC` defines no `validate`,
so `super().validate()` resolves to the abstract `BaseModel.validate`, whose
`pass` body returns `None`. -/
def staticNPCValidate (n : StaticNPC) : Bool :=
  if pyTruthyOptBool baseModelValidate = false then false
  else if (npcPersonalityList.contains n.personality) = false then false
  else if pyTruthyOpt n.occupation
      && ((npcOccupationList.contains (n.occupation.getD NPCOccupation.trader)) = false)
    then false
  else true

/-- Model of `DynamicNPC` state: the fields read or written by the embedded
operations (radio messages, cargo and the AI behavior state are untouched by
the claimed operations and are omitted). -/
structure DynamicNPC : Type where
  name : String
  age : Int
  alignment : Alignment
  hp : Int
  max_hp : Int
  is_alive : Bool
  credits : Int
  callsign : String
  ship_name : String
  ship_type : String
  current_location : Option Int
  destination_location : Option Int
  travel_start_time : Option Nat
  travel_duration : Option Int
  ship_hull : Int
  max_ship_hull : Int
  ship_fuel : Int
  max_ship_fuel : Int
  cargo_capacity : Int
  ai_behavior : String
  ev : EvState
deriving DecidableEq, Repr

/-- Model of `DynamicNPC.validate` (npc.py lines 739-753); the first guard
resolves exactly as in `staticNPCValidate`. -/
def dynamicNPCValidate (n : DynamicNPC) : Bool :=
  if pyTruthyOptBool baseModelValidate = false then false
  else if n.callsign = "" || n.ship_name = "" then false
  else if n.ship_fuel < 0 || n.max_ship_fuel < n.ship_fuel then false
  else if n.ship_hull < 0 || n.max_ship_hull < n.ship_hull then false
  else true

/-- Tracked assignment `self.destination_location = v` (tracked field, npc.py
line 461). -/
def DynamicNPC.setDestinationLocation (n : DynamicNPC) (v : Option Int)
    (now : Nat) : DynamicNPC :=
  if v = n.destination_location then n
  else
    { n with
      destination_location := v
      ev := n.ev.trackedTouch "destination_location"
        (optIntVal n.destination_location) (optIntVal v) now }

/-- Publish an event on a dynamic NPC's channel. -/
def DynamicNPC.pub (n : DynamicNPC) (event_type : String)
    (data : List (String × Val)) : DynamicNPC :=
  { n with ev := n.ev.pub event_type data }

/-- Model of `DynamicNPC.start_travel` (npc.py lines 516-540).  The travel
duration is in seconds (`timedelta.total_seconds()`); the fuel cost
`int(travel_time.total_seconds() / 60)` truncates toward zero.  The guard
`if not self.is_alive or self.destination_location` uses Python truthiness on
the optional destination id, so a destination id of 0 does not count as
"already traveling". -/
def startTravel (n : DynamicNPC) (destination_id : Int) (travel_secs : Int)
    (now : Nat) : Bool × DynamicNPC :=
  if n.is_alive = false || pyTruthyOptInt n.destination_location then
    (false, n)
  else if n.ship_fuel < 10 then
    (false, n)
  else
    let n1 := n.setDestinationLocation (some destination_id) now
    let n2 := { n1 with
      travel_start_time := some now
      travel_duration := some travel_secs }
    let fuel_cost := travel_secs.tdiv 60
    let n3 := { n2 with ship_fuel := max 0 (n2.ship_fuel - fuel_cost) }
    let n4 := n3.pub "npc_departing"
      [("npc_name", Val.vstr n3.name), ("callsign", Val.vstr n3.callsign),
       ("from_location", optIntVal n3.current_location),
       ("to_location", Val.vint destination_id),
       ("travel_time", Val.vrat (travel_secs : Rat))]
    (true, n4)

/-- Model of constructing a `Character` (character.py `Character.__init__`,
lines 55-109) restricted to the modeled fields; the literal initial values of
`__init__`. -/
def characterNew (player_ref name : String) (current_location : Option Int)
    (credits : Int) (now : Nat) : Character :=
  { player_ref := player_ref
  , name := name
  , current_location := current_location
  , credits := credits
  , ship_fuel := 50
  , ship_hull := 100
  , max_ship_hull := 100
  , karma := 0
  , wanted_level := 0
  , alignment := Alignment.neutral
  , location_status := LocationStatus.docked
  , is_alive := true
  , death_count := 0
  , last_death_time := none
  , experience := 0
  , level := 1
  , ev := EvState.fresh now }

/-! ## Theorems -/

/-- Storing an attribute makes it readable back. -/
theorem attrLookup_attrStore (attrs : List (String × Val)) (name : String)
    (v : Val) : attrLookup (attrStore attrs name v) name = some v := by
  induction attrs with
  | nil => simp [attrStore, attrLookup]
  | cons p rest ih =>
      obtain ⟨k, w⟩ := p
      by_cases hk : k = name <;> simp [attrStore, attrLookup, hk, ih]

/-- C1: for every entity and tracked field, writing a different value stores
it, marks the entity dirty with the fresh clock reading, and publishes
exactly one change event of type `<field>_changed` carrying
`{field, old_value, new_value}` (the history becomes the old history with
exactly that event appended, under the bounded-history eviction); the
tracked-field set is untouched.  Writing the value already held leaves the
entity completely unchanged: no store, no dirty flag, no event. -/
theorem C1_tracked_field_write (m : BaseModelState) (name : String)
    (v oldv : Val) (now : Nat)
    (hpriv : startsWithUnderscore name = false)
    (hattr : attrLookup m.attrs name = some oldv)
    (htr : name ∈ m.tracked) :
    (v ≠ oldv →
      setattrModel m name v now =
        { m with
          attrs := attrStore m.attrs name v
          ev :=
            { is_dirty := true
            , updated_at := now
            , history := publishEvent m.ev.history (changedEvent name oldv v) } } ∧
      attrLookup (setattrModel m name v now).attrs name = some v) ∧
    (v = oldv → setattrModel m name v now = m) := by
  constructor
  · intro hne
    have hs : setattrModel m name v now =
        { m with
          attrs := attrStore m.attrs name v
          ev :=
            { is_dirty := true
            , updated_at := now
            , history := publishEvent m.ev.history (changedEvent name oldv v) } } := by
      simp [setattrModel, hpriv, hattr, htr, EvState.trackedTouch, Ne.symm hne]
    exact ⟨hs, by rw [hs]; exact attrLookup_attrStore m.attrs name v⟩
  · intro heq
    subst heq
    simp [setattrModel, hpriv, hattr, htr]

/-- C1 witness: a concrete tracked write of a new value, and a concrete
write of the held value, behave as `C1_tracked_field_write` states. -/
theorem C1_tracked_field_write_witness :
    (setattrModel
        { attrs := [("credits", Val.vint 5)], tracked := ["credits"]
        , ev := EvState.fresh 0 }
        "credits" (Val.vint 7) 3 =
      { attrs := [("credits", Val.vint 7)], tracked := ["credits"]
      , ev :=
          { is_dirty := true, updated_at := 3
          , history := [changedEvent "credits" (Val.vint 5) (Val.vint 7)] } }) ∧
    (setattrModel
        { attrs := [("credits", Val.vint 5)], tracked := ["credits"]
        , ev := EvState.fresh 0 }
        "credits" (Val.vint 5) 3 =
      { attrs := [("credits", Val.vint 5)], tracked := ["credits"]
      , ev := EvState.fresh 0 }) := by
  have h := C1_tracked_field_write
    { attrs := [("credits", Val.vint 5)], tracked := ["credits"]
    , ev := EvState.fresh 0 }
    "credits" (Val.vint 7) (Val.vint 5) 3 (by decide) (by decide) (by decide)
  have h2 := C1_tracked_field_write
    { attrs := [("credits", Val.vint 5)], tracked := ["credits"]
    , ev := EvState.fresh 0 }
    "credits" (Val.vint 5) (Val.vint 5) 3 (by decide) (by decide) (by decide)
  refine ⟨?_, h2.2 rfl⟩
  have h3 := (h.1 (by decide)).1
  rw [h3]
  decide

/-- C2: constructing a ship of any type (the default shuttle included) raises
`TypeError`: the config-table literal of `_initialize_ship_stats` always
evaluates the explorer entry `ShipStats(scanner_range=200, fuel_efficiency=1.5)`
and `ShipStats` has no `fuel_efficiency` field. -/
theorem C2_ship_construction_raises_type_error (t : ShipType)
    (sid : Option Int) (oid : Int) (nm : String) (now : Nat) :
    shipNew sid oid nm t now =
      Except.error "TypeError: unexpected keyword argument" := by
  rfl

/-- C10: both `StaticNPC.validate` and `DynamicNPC.validate` return `False`
for every state whatsoever, because their first guard
`if not super().validate()` evaluates the abstract `BaseModel.validate`,
whose `pass` body returns `None`, which is falsy. -/
theorem C10_validate_always_false :
    (∀ n : StaticNPC, staticNPCValidate n = false) ∧
    (∀ n : DynamicNPC, dynamicNPCValidate n = false) := by
  exact ⟨fun n => rfl, fun n => rfl⟩

/-- C9 counterexample: the claim says a null-id `add` is rejected as an
ordinary non-thrown failure result, never a thrown fault; but on the empty
collection and a model with `id = None`, `add` raises `ValueError` (a thrown
fault in the embedding). -/
theorem C9_add_none_id_counterexample :
    collectionAdd { models := [], history := [] } { id := none, tag := "m" } =
      Except.error "ValueError: Cannot add model without ID to collection" := by
  rfl

/-- C9 amended: `add` with a null model id raises a `ValueError` fault (it is
not an ordinary returned failure) and produces no new collection; `add` with
a non-null id stores the model under that id and publishes exactly one
`model_added` event carrying the model. -/
theorem C9_add_amended (c : ModelCollection) (m : ColModel) :
    (m.id = none →
      collectionAdd c m =
        Except.error "ValueError: Cannot add model without ID to collection") ∧
    (∀ i : Int, m.id = some i →
      collectionAdd c m =
        Except.ok
          { models := colStore c.models i m
          , history :=
              collPublish c.history
                { event_type := "model_added", data := [("model", m)] } }) := by
  constructor
  · intro hnone
    simp [collectionAdd, hnone]
  · intro i hsome
    simp [collectionAdd, hsome]

/-- C9 witness: the amended statement at concrete inputs, both branches. -/
theorem C9_add_amended_witness :
    (collectionAdd { models := [], history := [] } { id := none, tag := "a" } =
      Except.error "ValueError: Cannot add model without ID to collection") ∧
    (collectionAdd { models := [], history := [] } { id := some 4, tag := "b" } =
      Except.ok
        { models := [(4, { id := some 4, tag := "b" })]
        , history :=
            [{ event_type := "model_added"
             , data := [("model", { id := some 4, tag := "b" })] }] }) := by
  constructor
  · exact (C9_add_amended { models := [], history := [] }
      { id := none, tag := "a" }).1 rfl
  · have h := (C9_add_amended { models := [], history := [] }
      { id := some 4, tag := "b" }).2 4 rfl
    rw [h]
    rfl

/-- A published event is always the most recent entry of the history. -/
theorem publishEvent_getLast (h : List GameEvent) (e : GameEvent) :
    (publishEvent h e).getLast? = some e := by
  simp only [publishEvent]
  split
  next hlen =>
    cases h with
    | nil => simp [maxHistorySize] at hlen
    | cons hd tl => simp [List.getLast?_append_cons]
  next => simp [List.getLast?_append_cons]

/-- C3: damaging an alive character by `d > 0` leaves hull at
`max(0, hull - d)`; when the hull is exhausted the character dies exactly
once: alive becomes false, the death count rises by exactly one, and a tenth
of the current credits (exact quotient truncated, which is the floor for the
nonnegative balances the claim ranges over) is deducted with the balance
floored at 0.  Damaging a dead character returns failure and changes
nothing. -/
theorem C3_take_damage (c : Character) (d : Int) (source : Option String)
    (now : Nat) (_hd : 0 < d) (_hcred : 0 ≤ c.credits) :
    (c.is_alive = false → takeDamage c d source now = (false, c)) ∧
    (c.is_alive = true →
      (takeDamage c d source now).1 = true ∧
      (takeDamage c d source now).2.ship_hull = max 0 (c.ship_hull - d) ∧
      (c.ship_hull ≤ d →
        (takeDamage c d source now).2.is_alive = false ∧
        (takeDamage c d source now).2.death_count = c.death_count + 1 ∧
        (takeDamage c d source now).2.credits =
          max 0 (c.credits - c.credits.tdiv 10)) ∧
      (d < c.ship_hull →
        (takeDamage c d source now).2.is_alive = true ∧
        (takeDamage c d source now).2.death_count = c.death_count ∧
        (takeDamage c d source now).2.credits = c.credits)) := by
  constructor
  · intro h
    simp [takeDamage, h]
  · intro h
    by_cases hdeath : c.ship_hull ≤ d
    · have hmax : max 0 (c.ship_hull - d) = 0 := by omega
      simp [takeDamage, h, hmax, Character.pub, EvState.pub, handleDeath,
        Character.setIsAlive, Character.setCredits, EvState.trackedTouch]
      split_ifs <;> simp_all
    · have hmax : max 0 (c.ship_hull - d) = c.ship_hull - d := by omega
      simp only [takeDamage, h, Bool.true_eq_false, if_false,
        Character.pub, EvState.pub]
      simp only [hmax]
      have hpos : ¬ (c.ship_hull - d ≤ 0) := by omega
      simp [hpos, hdeath]

/-- C3 witness: a fresh character (hull 100, credits 1000) hit for 150 dies:
hull 0, alive false, death count 1, credits 900;
hit for 30 instead it stays alive with hull 70 and credits untouched;
and damaging the dead character changes nothing. -/
theorem C3_take_damage_witness :
    ((takeDamage (characterNew "p" "n" (some 1) 1000 0) 150 none 5).2.is_alive
        = false ∧
     (takeDamage (characterNew "p" "n" (some 1) 1000 0) 150 none 5).2.death_count
        = 1 ∧
     (takeDamage (characterNew "p" "n" (some 1) 1000 0) 150 none 5).2.credits
        = 900 ∧
     (takeDamage (characterNew "p" "n" (some 1) 1000 0) 150 none 5).2.ship_hull
        = 0) ∧
    ((takeDamage (characterNew "p" "n" (some 1) 1000 0) 30 none 5).2.ship_hull
        = 70 ∧
     (takeDamage (characterNew "p" "n" (some 1) 1000 0) 30 none 5).2.credits
        = 1000) := by
  have h1 := C3_take_damage (characterNew "p" "n" (some 1) 1000 0) 150 none 5
    (by decide) (by decide)
  have h2 := C3_take_damage (characterNew "p" "n" (some 1) 1000 0) 30 none 5
    (by decide) (by decide)
  have d1 := (h1.2 rfl).2.2.1 (by decide)
  have d2 := (h2.2 rfl).2.1
  have d3 := (h2.2 rfl).2.2.2 (by decide)
  refine ⟨⟨d1.1, by rw [d1.2.1]; rfl, by rw [d1.2.2]; rfl, ?_⟩, ⟨?_, d3.2.2⟩⟩
  · rw [(h1.2 rfl).2.1]
    rfl
  · rw [d2]
    rfl

/-- C6: a withdrawal that would drive the balance negative returns failure
and leaves the character (credits included) unchanged — in particular
credits 1000 with `add_credits(-1200)` stays at 1000; any accepted
transaction adds the amount, and when its absolute value exceeds the fixed
threshold 1000 a `major_transaction` event is additionally published (it is
the most recent history entry). -/
theorem C6_add_credits (c : Character) (amount : Int) (now : Nat) :
    (amount < 0 ∧ c.credits + amount < 0 →
      addCredits c amount now = (false, c)) ∧
    (¬(amount < 0 ∧ c.credits + amount < 0) →
      (addCredits c amount now).1 = true ∧
      (addCredits c amount now).2.credits = c.credits + amount ∧
      (1000 < |amount| →
        ((addCredits c amount now).2.ev.history).getLast? =
          some { event_type := "major_transaction"
               , data := [("amount", Val.vint amount),
                          ("new_balance", Val.vint (c.credits + amount))] })) := by
  constructor
  · intro h
    simp [addCredits, h]
  · intro h
    simp only [addCredits, if_neg h, Character.pub, EvState.pub,
      Character.setCredits]
    by_cases hbig : 1000 < |amount|
    · by_cases hsame : c.credits + amount = c.credits
      · simp [hsame, hbig, publishEvent_getLast]
      · simp [hsame, hbig, EvState.trackedTouch, publishEvent_getLast]
    · by_cases hsame : c.credits + amount = c.credits
      · simp [hsame, hbig]
      · simp [hsame, hbig, EvState.trackedTouch]

/-- C6 witness: the claim's scenario — credits 1000, `add_credits(-1200)` is
rejected with credits unchanged — and an accepted deposit of 2000 leaves
credits 3000 with a `major_transaction` event as the newest history entry. -/
theorem C6_add_credits_witness :
    (addCredits (characterNew "p" "n" (some 1) 1000 0) (-1200) 5 =
      (false, characterNew "p" "n" (some 1) 1000 0)) ∧
    ((addCredits (characterNew "p" "n" (some 1) 1000 0) 2000 5).2.credits
        = 3000 ∧
     ((addCredits (characterNew "p" "n" (some 1) 1000 0) 2000 5).2.ev.history).getLast? =
        some { event_type := "major_transaction"
             , data := [("amount", Val.vint 2000), ("new_balance", Val.vint 3000)] }) := by
  have h1 := (C6_add_credits (characterNew "p" "n" (some 1) 1000 0) (-1200) 5).1
    (by constructor <;> decide)
  have h2 := (C6_add_credits (characterNew "p" "n" (some 1) 1000 0) 2000 5).2
    (by simp)
  exact ⟨h1, h2.2.1, h2.2.2 (by decide)⟩

/-- Publishing an event does not change a ship's hull points. -/
@[simp] theorem Ship.pub_hull_points (s : Ship) (et : String)
    (da : List (String × Val)) : (Ship.pub s et da).hull_points = s.hull_points :=
  rfl

/-- System damage touches only the damage report (and the channel), never the
hull points. -/
@[simp] theorem applySystemDamage_hull_points (s : Ship) (dt : String)
    (rsys : Fin 5) (runi : Rat) :
    (applySystemDamage s dt rsys runi).hull_points = s.hull_points := by
  simp only [applySystemDamage, Ship.pub, EvState.pub]
  split_ifs <;> rfl

/-- Deactivating a ship does not change its hull points. -/
@[simp] theorem Ship.setIsActive_hull_points (s : Ship) (v : Bool) (now : Nat) :
    (Ship.setIsActive s v now).hull_points = s.hull_points := by
  simp only [Ship.setIsActive]
  split_ifs <;> rfl

/-- The tracked hull write stores exactly the requested value. -/
@[simp] theorem Ship.setHullPoints_hull_points (s : Ship) (v : Int) (now : Nat) :
    (Ship.setHullPoints s v now).hull_points = v := by
  simp only [Ship.setHullPoints]
  split_ifs with h
  · exact h.symm
  · rfl

/-- The tail of `apply_damage` never changes the hull points set by the hull
write that precedes it. -/
@[simp] theorem applyDamageAfterHull_hull_points (s2 : Ship) (actual : Int)
    (damage_type : String) (rsys : Fin 5) (runi : Rat) (now : Nat) :
    (applyDamageAfterHull s2 actual damage_type rsys runi now).hull_points =
      s2.hull_points := by
  simp only [applyDamageAfterHull]
  split_ifs <;>
    simp [Ship.pub_hull_points, Ship.setIsActive_hull_points,
      applySystemDamage_hull_points]

/-- C4: for every ship with nonnegative shield level and hull, damage `d > 0`
of any non-bypass type removes `max(0, d - shieldLevel*10)` hull points, the
result clamped at 0; exactly that remainder is also the returned
hull-damage figure (the shields absorb `min(d, shieldLevel*10)` first). -/
theorem C4_apply_damage_shield_absorption (s : Ship) (d : Int)
    (damage_type : String) (rsys : Fin 5) (runi : Rat) (now : Nat)
    (hs : 0 ≤ s.shield_level) (hd : 0 < d) (hhull : 0 ≤ s.hull_points)
    (hbt : damage_type ≠ "bypass") :
    (applyDamage s d damage_type rsys runi now).1 =
      max 0 (d - s.shield_level * 10) ∧
    (applyDamage s d damage_type rsys runi now).2.hull_points =
      max 0 (s.hull_points - max 0 (d - s.shield_level * 10)) := by
  by_cases hshield : 0 < s.shield_level
  · simp only [applyDamage, hshield, hbt, ne_eq, not_false_eq_true, and_self,
      if_true]
    split_ifs <;>
      simp [applyDamageAfterHull_hull_points, Ship.setHullPoints_hull_points,
        Ship.pub_hull_points] <;>
      omega
  · simp only [applyDamage, hshield, false_and, if_false]
    split_ifs <;>
      simp [applyDamageAfterHull_hull_points, Ship.setHullPoints_hull_points,
        Ship.pub_hull_points] <;>
      omega

/-- C4 witness: a freighter-statted ship with shield level 2 and hull 150 hit
for 50 general damage: 20 absorbed, 30 reach the hull, hull 120 and the call
returns 30. -/
theorem C4_apply_damage_shield_absorption_witness :
    (applyDamage
        { owner_id := 1, name := "s", ship_type := ShipType.freighter
        , cargo_capacity := 200, fuel_capacity := 150, max_hull_points := 150
        , base_stats := defaultShipStats, hull_points := 150, fuel := 150
        , upgrades := [], engine_level := 1, shield_level := 2
        , weapon_level := 1, power_available := 100, power_used := 0
        , docked_at_location := none, is_active := true
        , damage_report :=
            { hull := 0, engine := 0, weapons := 0, shields := 0, life_support := 0 }
        , ev := EvState.fresh 0 }
        50 "general" 0 (1/10) 1).1 = 30 ∧
    (applyDamage
        { owner_id := 1, name := "s", ship_type := ShipType.freighter
        , cargo_capacity := 200, fuel_capacity := 150, max_hull_points := 150
        , base_stats := defaultShipStats, hull_points := 150, fuel := 150
        , upgrades := [], engine_level := 1, shield_level := 2
        , weapon_level := 1, power_available := 100, power_used := 0
        , docked_at_location := none, is_active := true
        , damage_report :=
            { hull := 0, engine := 0, weapons := 0, shields := 0, life_support := 0 }
        , ev := EvState.fresh 0 }
        50 "general" 0 (1/10) 1).2.hull_points = 120 := by
  have h := C4_apply_damage_shield_absorption
    { owner_id := 1, name := "s", ship_type := ShipType.freighter
    , cargo_capacity := 200, fuel_capacity := 150, max_hull_points := 150
    , base_stats := defaultShipStats, hull_points := 150, fuel := 150
    , upgrades := [], engine_level := 1, shield_level := 2
    , weapon_level := 1, power_available := 100, power_used := 0
    , docked_at_location := none, is_active := true
    , damage_report :=
        { hull := 0, engine := 0, weapons := 0, shields := 0, life_support := 0 }
    , ev := EvState.fresh 0 }
    50 "general" 0 (1/10) 1 (by decide) (by decide) (by decide) (by decide)
  exact ⟨by rw [h.1]; decide, by rw [h.2]; decide⟩

/-- A successful association-list lookup returns a stored pair. -/
theorem assocFind_mem {κ α : Type} [DecidableEq κ] {l : List (κ × α)} {k : κ}
    {v : α} (h : assocFind l k = some v) : (k, v) ∈ l := by
  induction l with
  | nil => simp [assocFind] at h
  | cons p rest ih =>
      obtain ⟨k0, a⟩ := p
      by_cases hk : k0 = k
      · subst hk
        simp [assocFind] at h
        simp [h]
      · simp [assocFind, hk] at h
        exact List.mem_cons_of_mem _ (ih h)

/-- The level-recalculation step never touches the power budget fields or the
installed-upgrade dictionary. -/
theorem upgradeLevelStep_frame (acc : Ship) (p : String × ShipUpgrade) :
    (upgradeLevelStep acc p).power_used = acc.power_used ∧
    (upgradeLevelStep acc p).power_available = acc.power_available ∧
    (upgradeLevelStep acc p).upgrades = acc.upgrades := by
  obtain ⟨k, w⟩ := p
  obtain ⟨uid, nm, ut, lv, bv, de, pr, ms⟩ := w
  cases ut <;> exact ⟨rfl, rfl, rfl⟩

/-- Folding the level-recalculation step never touches `power_used`. -/
@[simp] theorem foldl_upgradeLevelStep_power_used
    (l : List (String × ShipUpgrade)) (acc : Ship) :
    (l.foldl upgradeLevelStep acc).power_used = acc.power_used := by
  induction l generalizing acc with
  | nil => rfl
  | cons p rest ih =>
      rw [List.foldl_cons, ih (upgradeLevelStep acc p),
        (upgradeLevelStep_frame acc p).1]

/-- Folding the level-recalculation step never touches `power_available`. -/
@[simp] theorem foldl_upgradeLevelStep_power_available
    (l : List (String × ShipUpgrade)) (acc : Ship) :
    (l.foldl upgradeLevelStep acc).power_available = acc.power_available := by
  induction l generalizing acc with
  | nil => rfl
  | cons p rest ih =>
      rw [List.foldl_cons, ih (upgradeLevelStep acc p),
        (upgradeLevelStep_frame acc p).2.1]

/-- Folding the level-recalculation step never touches the installed-upgrade
dictionary. -/
@[simp] theorem foldl_upgradeLevelStep_upgrades
    (l : List (String × ShipUpgrade)) (acc : Ship) :
    (l.foldl upgradeLevelStep acc).upgrades = acc.upgrades := by
  induction l generalizing acc with
  | nil => rfl
  | cons p rest ih =>
      rw [List.foldl_cons, ih (upgradeLevelStep acc p),
        (upgradeLevelStep_frame acc p).2.2]

/-- If no upgrade of the engine category is installed, the fold leaves the
engine level at its accumulator value. -/
theorem foldl_upgradeLevelStep_engine (l : List (String × ShipUpgrade))
    (acc : Ship)
    (h : ∀ p ∈ l, p.2.upgrade_type ≠ ShipUpgradeType.engine) :
    (l.foldl upgradeLevelStep acc).engine_level = acc.engine_level := by
  induction l generalizing acc with
  | nil => rfl
  | cons p rest ih =>
      have hp := h p (List.mem_cons_self p rest)
      have hrest : ∀ q ∈ rest, q.2.upgrade_type ≠ ShipUpgradeType.engine :=
        fun q hq => h q (List.mem_cons_of_mem p hq)
      rw [List.foldl_cons, ih _ hrest]
      obtain ⟨k, w⟩ := p
      obtain ⟨uid, nm, ut, lv, bv, de, pr, ms⟩ := w
      cases ut <;> simp_all [upgradeLevelStep]

/-- If no upgrade of the shield category is installed, the fold leaves the
shield level at its accumulator value. -/
theorem foldl_upgradeLevelStep_shield (l : List (String × ShipUpgrade))
    (acc : Ship)
    (h : ∀ p ∈ l, p.2.upgrade_type ≠ ShipUpgradeType.shield) :
    (l.foldl upgradeLevelStep acc).shield_level = acc.shield_level := by
  induction l generalizing acc with
  | nil => rfl
  | cons p rest ih =>
      have hp := h p (List.mem_cons_self p rest)
      have hrest : ∀ q ∈ rest, q.2.upgrade_type ≠ ShipUpgradeType.shield :=
        fun q hq => h q (List.mem_cons_of_mem p hq)
      rw [List.foldl_cons, ih _ hrest]
      obtain ⟨k, w⟩ := p
      obtain ⟨uid, nm, ut, lv, bv, de, pr, ms⟩ := w
      cases ut <;> simp_all [upgradeLevelStep]

/-- If no upgrade of the weapon category is installed, the fold leaves the
weapon level at its accumulator value. -/
theorem foldl_upgradeLevelStep_weapon (l : List (String × ShipUpgrade))
    (acc : Ship)
    (h : ∀ p ∈ l, p.2.upgrade_type ≠ ShipUpgradeType.weapon) :
    (l.foldl upgradeLevelStep acc).weapon_level = acc.weapon_level := by
  induction l generalizing acc with
  | nil => rfl
  | cons p rest ih =>
      have hp := h p (List.mem_cons_self p rest)
      have hrest : ∀ q ∈ rest, q.2.upgrade_type ≠ ShipUpgradeType.weapon :=
        fun q hq => h q (List.mem_cons_of_mem p hq)
      rw [List.foldl_cons, ih _ hrest]
      obtain ⟨k, w⟩ := p
      obtain ⟨uid, nm, ut, lv, bv, de, pr, ms⟩ := w
      cases ut <;> simp_all [upgradeLevelStep]

/-- The stat reversion touches neither the power fields, the upgrade
dictionary, nor the three category levels. -/
theorem revertUpgradeStats_frame (s1 : Ship) (u : ShipUpgrade) :
    (revertUpgradeStats s1 u).power_used = s1.power_used ∧
    (revertUpgradeStats s1 u).power_available = s1.power_available ∧
    (revertUpgradeStats s1 u).upgrades = s1.upgrades ∧
    (revertUpgradeStats s1 u).engine_level = s1.engine_level ∧
    (revertUpgradeStats s1 u).shield_level = s1.shield_level ∧
    (revertUpgradeStats s1 u).weapon_level = s1.weapon_level := by
  obtain ⟨uid, nm, ut, lv, bv, de, pr, ms⟩ := u
  cases ut <;> exact ⟨rfl, rfl, rfl, rfl, rfl, rfl⟩

/-- The stat update of `add_upgrade` touches neither the power fields nor the
upgrade dictionary. -/
theorem applyUpgradeStats_frame (s2 : Ship) (u : ShipUpgrade) :
    (applyUpgradeStats s2 u).power_used = s2.power_used ∧
    (applyUpgradeStats s2 u).power_available = s2.power_available ∧
    (applyUpgradeStats s2 u).upgrades = s2.upgrades := by
  obtain ⟨uid, nm, ut, lv, bv, de, pr, ms⟩ := u
  cases ut <;> exact ⟨rfl, rfl, rfl⟩

/-- A removal that finds nothing returns the ship unchanged. -/
theorem removeUpgrade_not_found (s : Ship) (uid : String) (now : Nat)
    (h : assocFind s.upgrades uid = none) :
    removeUpgrade s uid now = (none, s) := by
  simp [removeUpgrade, h]

/-- Power accounting and upgrade dictionary of a successful removal. -/
theorem removeUpgrade_found (s : Ship) (uid : String) (now : Nat)
    (w : ShipUpgrade) (h : assocFind s.upgrades uid = some w) :
    (removeUpgrade s uid now).2.power_used = s.power_used - w.power_requirement ∧
    (removeUpgrade s uid now).2.power_available = s.power_available ∧
    (removeUpgrade s uid now).2.upgrades = assocErase s.upgrades uid := by
  simp only [removeUpgrade, h, Ship.pub, EvState.pub, recalcUpgradeLevels]
  refine ⟨?_, ?_, ?_⟩
  · rw [foldl_upgradeLevelStep_power_used, (revertUpgradeStats_frame _ _).1]
  · rw [foldl_upgradeLevelStep_power_available,
      (revertUpgradeStats_frame _ _).2.1]
  · rw [foldl_upgradeLevelStep_upgrades, (revertUpgradeStats_frame _ _).2.2.1]

/-- Removing the only engine-category upgrade resets the engine level to its
default 1. -/
theorem removeUpgrade_engine_reset (s : Ship) (uid : String) (now : Nat)
    (v : ShipUpgrade) (hv : assocFind s.upgrades uid = some v)
    (_ht : v.upgrade_type = ShipUpgradeType.engine)
    (h : ∀ p ∈ assocErase s.upgrades uid,
      p.2.upgrade_type ≠ ShipUpgradeType.engine) :
    (removeUpgrade s uid now).2.engine_level = 1 := by
  simp only [removeUpgrade, hv, Ship.pub, EvState.pub, recalcUpgradeLevels]
  rw [(revertUpgradeStats_frame _ _).2.2.1]
  exact foldl_upgradeLevelStep_engine _ _ (fun p hp => h p hp)

/-- Removing the only shield-category upgrade resets the shield level to its
default 0. -/
theorem removeUpgrade_shield_reset (s : Ship) (uid : String) (now : Nat)
    (v : ShipUpgrade) (hv : assocFind s.upgrades uid = some v)
    (_ht : v.upgrade_type = ShipUpgradeType.shield)
    (h : ∀ p ∈ assocErase s.upgrades uid,
      p.2.upgrade_type ≠ ShipUpgradeType.shield) :
    (removeUpgrade s uid now).2.shield_level = 0 := by
  simp only [removeUpgrade, hv, Ship.pub, EvState.pub, recalcUpgradeLevels]
  rw [(revertUpgradeStats_frame _ _).2.2.1]
  exact foldl_upgradeLevelStep_shield _ _ (fun p hp => h p hp)

/-- Removing the only weapon-category upgrade resets the weapon level to its
default 1. -/
theorem removeUpgrade_weapon_reset (s : Ship) (uid : String) (now : Nat)
    (v : ShipUpgrade) (hv : assocFind s.upgrades uid = some v)
    (_ht : v.upgrade_type = ShipUpgradeType.weapon)
    (h : ∀ p ∈ assocErase s.upgrades uid,
      p.2.upgrade_type ≠ ShipUpgradeType.weapon) :
    (removeUpgrade s uid now).2.weapon_level = 1 := by
  simp only [removeUpgrade, hv, Ship.pub, EvState.pub, recalcUpgradeLevels]
  rw [(revertUpgradeStats_frame _ _).2.2.1]
  exact foldl_upgradeLevelStep_weapon _ _ (fun p hp => h p hp)

/-- C5: the power-budget invariant `power_used ≤ power_available` is
preserved by every `add_upgrade` call (the call fails instead of exceeding
the budget, including when it first evicts an installed upgrade of the same
category) and by every `remove_upgrade` call; and removing the only
installed upgrade of a category resets that category's level to its default
(engine 1, shield 0, weapon 1).  Power requirements of the upgrades involved
are nonnegative, as everywhere in the game data. -/
theorem C5_upgrade_power_invariant_and_level_reset (s : Ship)
    (u : ShipUpgrade) (uid : String) (now : Nat)
    (hinv : s.power_used ≤ s.power_available)
    (hupos : ∀ p ∈ s.upgrades, 0 ≤ p.2.power_requirement)
    (_hu : 0 ≤ u.power_requirement) :
    ((addUpgrade s u now).2.power_used ≤ (addUpgrade s u now).2.power_available) ∧
    ((removeUpgrade s uid now).2.power_used ≤
      (removeUpgrade s uid now).2.power_available) ∧
    (∀ v, assocFind s.upgrades uid = some v →
      (∀ p ∈ s.upgrades, p.2.upgrade_type = v.upgrade_type → p.1 = uid) →
      ((v.upgrade_type = ShipUpgradeType.engine →
          (removeUpgrade s uid now).2.engine_level = 1) ∧
       (v.upgrade_type = ShipUpgradeType.shield →
          (removeUpgrade s uid now).2.shield_level = 0) ∧
       (v.upgrade_type = ShipUpgradeType.weapon →
          (removeUpgrade s uid now).2.weapon_level = 1))) := by
  have hremove : ∀ t : String,
      (removeUpgrade s t now).2.power_used ≤ s.power_used ∧
      (removeUpgrade s t now).2.power_available = s.power_available := by
    intro t
    cases hf : assocFind s.upgrades t with
    | none => rw [removeUpgrade_not_found s t now hf]; exact ⟨le_refl _, rfl⟩
    | some w =>
        obtain ⟨h1, h2, _⟩ := removeUpgrade_found s t now w hf
        have hwpos : 0 ≤ w.power_requirement := hupos (t, w) (assocFind_mem hf)
        rw [h1, h2]
        exact ⟨by omega, rfl⟩
  refine ⟨?_, ?_, ?_⟩
  · by_cases hcap : s.power_available < s.power_used + u.power_requirement
    · simp only [addUpgrade, if_pos hcap]
      exact hinv
    · simp only [addUpgrade, if_neg hcap]
      cases hold : s.upgrades.find? fun p => p.2.upgrade_type == u.upgrade_type with
      | none =>
          simp only [Ship.pub]
          rw [(applyUpgradeStats_frame _ _).1, (applyUpgradeStats_frame _ _).2.1]
          show s.power_used + u.power_requirement ≤ s.power_available
          omega
      | some p =>
          obtain ⟨hr1, hr2⟩ := hremove p.2.upgrade_id
          simp only [Ship.pub]
          rw [(applyUpgradeStats_frame _ _).1, (applyUpgradeStats_frame _ _).2.1]
          show (removeUpgrade s p.2.upgrade_id now).2.power_used
              + u.power_requirement ≤
            (removeUpgrade s p.2.upgrade_id now).2.power_available
          omega
  · have hr := hremove uid
    exact hr.2 ▸ le_trans hr.1 hinv
  · intro v hv honly
    have herase : ∀ p ∈ assocErase s.upgrades uid,
        p.2.upgrade_type ≠ v.upgrade_type := by
      intro p hp hpt
      have hmem : p ∈ s.upgrades ∧ p.1 ≠ uid := by
        have := List.mem_filter.mp hp
        constructor
        · exact this.1
        · simpa using this.2
      exact hmem.2 (honly p hmem.1 hpt)
    refine ⟨fun ht => ?_, fun ht => ?_, fun ht => ?_⟩
    · exact removeUpgrade_engine_reset s uid now v hv ht
        (fun p hp hpe => herase p hp (hpe.trans ht.symm))
    · exact removeUpgrade_shield_reset s uid now v hv ht
        (fun p hp hpe => herase p hp (hpe.trans ht.symm))
    · exact removeUpgrade_weapon_reset s uid now v hv ht
        (fun p hp hpe => herase p hp (hpe.trans ht.symm))

/-- C5 witness: on a ship with one engine upgrade (level 3, 10 power)
installed and 100 power available, adding a 5-power weapon upgrade keeps
`power_used ≤ power_available`, and removing the engine upgrade keeps the
invariant and resets the engine level to 1. -/
theorem C5_upgrade_power_invariant_and_level_reset_witness :
    (addUpgrade
        { owner_id := 1, name := "s", ship_type := ShipType.shuttle
        , cargo_capacity := 50, fuel_capacity := 80, max_hull_points := 50
        , base_stats := defaultShipStats, hull_points := 50, fuel := 80
        , upgrades :=
            [("e1",
              { upgrade_id := "e1", name := "Engine MkIII"
              , upgrade_type := ShipUpgradeType.engine, level := 3
              , bonus_value := 0, description := "", power_requirement := 10
              , mass := 0 })]
        , engine_level := 3, shield_level := 0, weapon_level := 1
        , power_available := 100, power_used := 10
        , docked_at_location := none, is_active := true
        , damage_report :=
            { hull := 0, engine := 0, weapons := 0, shields := 0, life_support := 0 }
        , ev := EvState.fresh 0 }
        { upgrade_id := "w1", name := "Laser"
        , upgrade_type := ShipUpgradeType.weapon, level := 2, bonus_value := 0
        , description := "", power_requirement := 5, mass := 0 } 1).2.power_used ≤
      (addUpgrade
        { owner_id := 1, name := "s", ship_type := ShipType.shuttle
        , cargo_capacity := 50, fuel_capacity := 80, max_hull_points := 50
        , base_stats := defaultShipStats, hull_points := 50, fuel := 80
        , upgrades :=
            [("e1",
              { upgrade_id := "e1", name := "Engine MkIII"
              , upgrade_type := ShipUpgradeType.engine, level := 3
              , bonus_value := 0, description := "", power_requirement := 10
              , mass := 0 })]
        , engine_level := 3, shield_level := 0, weapon_level := 1
        , power_available := 100, power_used := 10
        , docked_at_location := none, is_active := true
        , damage_report :=
            { hull := 0, engine := 0, weapons := 0, shields := 0, life_support := 0 }
        , ev := EvState.fresh 0 }
        { upgrade_id := "w1", name := "Laser"
        , upgrade_type := ShipUpgradeType.weapon, level := 2, bonus_value := 0
        , description := "", power_requirement := 5, mass := 0 } 1).2.power_available ∧
    (removeUpgrade
        { owner_id := 1, name := "s", ship_type := ShipType.shuttle
        , cargo_capacity := 50, fuel_capacity := 80, max_hull_points := 50
        , base_stats := defaultShipStats, hull_points := 50, fuel := 80
        , upgrades :=
            [("e1",
              { upgrade_id := "e1", name := "Engine MkIII"
              , upgrade_type := ShipUpgradeType.engine, level := 3
              , bonus_value := 0, description := "", power_requirement := 10
              , mass := 0 })]
        , engine_level := 3, shield_level := 0, weapon_level := 1
        , power_available := 100, power_used := 10
        , docked_at_location := none, is_active := true
        , damage_report :=
            { hull := 0, engine := 0, weapons := 0, shields := 0, life_support := 0 }
        , ev := EvState.fresh 0 }
        "e1" 1).2.engine_level = 1 := by
  have h := C5_upgrade_power_invariant_and_level_reset
    { owner_id := 1, name := "s", ship_type := ShipType.shuttle
    , cargo_capacity := 50, fuel_capacity := 80, max_hull_points := 50
    , base_stats := defaultShipStats, hull_points := 50, fuel := 80
    , upgrades :=
        [("e1",
          { upgrade_id := "e1", name := "Engine MkIII"
          , upgrade_type := ShipUpgradeType.engine, level := 3
          , bonus_value := 0, description := "", power_requirement := 10
          , mass := 0 })]
    , engine_level := 3, shield_level := 0, weapon_level := 1
    , power_available := 100, power_used := 10
    , docked_at_location := none, is_active := true
    , damage_report :=
        { hull := 0, engine := 0, weapons := 0, shields := 0, life_support := 0 }
    , ev := EvState.fresh 0 }
    { upgrade_id := "w1", name := "Laser"
    , upgrade_type := ShipUpgradeType.weapon, level := 2, bonus_value := 0
    , description := "", power_requirement := 5, mass := 0 }
    "e1" 1 (by decide) (by decide) (by decide)
  refine ⟨h.1, ?_⟩
  exact (h.2.2
    { upgrade_id := "e1", name := "Engine MkIII"
    , upgrade_type := ShipUpgradeType.engine, level := 3
    , bonus_value := 0, description := "", power_requirement := 10
    , mass := 0 } (by decide) (by decide)).1 rfl

/-- Removing a service always leaves the service set without it (removal of
an absent service is a no-op on an already-clean set). -/
theorem removeService_services (l : Location) (svc : Service) :
    (removeService l svc).services = l.services.erase svc := by
  simp only [removeService, Location.pub, EvState.pub]
  split_ifs with h
  · rfl
  · exact (Finset.erase_eq_of_not_mem h).symm

/-- Removing a service touches only the service set and the channel. -/
theorem removeService_frame (l : Location) (svc : Service) :
    (removeService l svc).location_type = l.location_type ∧
    (removeService l svc).wealth_level = l.wealth_level ∧
    (removeService l svc).population = l.population ∧
    (removeService l svc).is_derelict = l.is_derelict ∧
    (removeService l svc).description = l.description := by
  simp only [removeService, Location.pub, EvState.pub]
  split_ifs <;> exact ⟨rfl, rfl, rfl, rfl, rfl⟩

/-- Membership after the removal loop of `set_derelict`: a service survives
iff it was present and is either comms or not in the processed list. -/
theorem stripFold_mem (lst : List Service) (loc : Location) (x : Service) :
    (x ∈ (lst.foldl
        (fun acc svc =>
          if svc ≠ Service.comms then removeService acc svc else acc)
        loc).services) ↔
      x ∈ loc.services ∧ (x ∉ lst ∨ x = Service.comms) := by
  induction lst generalizing loc with
  | nil => simp
  | cons svc rest ih =>
      rw [List.foldl_cons]
      by_cases hc : svc = Service.comms
      · simp only [hc, ne_eq, not_true_eq_false, if_false]
        rw [ih]
        by_cases hx : x = Service.comms <;> simp [hx, List.mem_cons] <;> tauto
      · simp only [ne_eq, hc, not_false_eq_true, if_true]
        rw [ih]
        simp only [removeService_services, Finset.mem_erase, List.mem_cons]
        by_cases hx : x = Service.comms
        · have hxs : x ≠ svc := by rw [hx]; exact fun he => hc he.symm
          simp [hx, hxs]
          exact fun _ he => hc he.symm
        · constructor
          · rintro ⟨⟨hxs, hmem⟩, hrest⟩
            exact ⟨hmem, by tauto⟩
          · rintro ⟨hmem, hrest⟩
            rcases hrest with hno | he
            · exact ⟨⟨fun he2 => hno (Or.inl he2), hmem⟩, by tauto⟩
            · exact absurd he hx

/-- The removal loop touches only the service set and the channel. -/
theorem stripFold_frame (lst : List Service) (loc : Location) :
    (lst.foldl
        (fun acc svc =>
          if svc ≠ Service.comms then removeService acc svc else acc)
        loc).location_type = loc.location_type ∧
    (lst.foldl
        (fun acc svc =>
          if svc ≠ Service.comms then removeService acc svc else acc)
        loc).wealth_level = loc.wealth_level ∧
    (lst.foldl
        (fun acc svc =>
          if svc ≠ Service.comms then removeService acc svc else acc)
        loc).population = loc.population := by
  induction lst generalizing loc with
  | nil => exact ⟨rfl, rfl, rfl⟩
  | cons svc rest ih =>
      rw [List.foldl_cons]
      by_cases hc : svc = Service.comms
      · simp only [hc, ne_eq, not_true_eq_false, if_false]
        exact ih loc
      · simp only [ne_eq, hc, not_false_eq_true, if_true]
        obtain ⟨i1, i2, i3⟩ := ih (removeService loc svc)
        obtain ⟨r1, r2, r3, _, _⟩ := removeService_frame loc svc
        exact ⟨i1.trans r1, i2.trans r2, i3.trans r3⟩

/-- Every member of the `Service` enum is in `serviceList`. -/
theorem mem_serviceList (x : Service) : x ∈ serviceList := by
  cases x <;> simp [serviceList]

/-- After stripping, a service survives iff it is comms and was present. -/
theorem stripServices_mem (loc : Location) (x : Service) :
    x ∈ (stripServices loc).services ↔
      x ∈ loc.services ∧ x = Service.comms := by
  rw [stripServices, stripFold_mem]
  simp [mem_serviceList x]

/-- Membership through a conditional two-service insertion. -/
theorem mem_condInsert2 (c : Prop) [Decidable c] (a b : Service)
    (s : Finset Service) (x : Service) :
    x ∈ (if c then insert a (insert b s) else s) ↔
      x ∈ s ∨ (c ∧ (x = a ∨ x = b)) := by
  split_ifs with h <;> simp [h] <;> tauto

/-- Membership through a conditional one-service insertion. -/
theorem mem_condInsert1 (c : Prop) [Decidable c] (a : Service)
    (s : Finset Service) (x : Service) :
    x ∈ (if c then insert a s else s) ↔ x ∈ s ∨ (c ∧ x = a) := by
  split_ifs with h <;> simp [h] <;> tauto

/-- Membership through the basic-services step. -/
theorem mem_initBaseServices (t : LocationType) (s : Finset Service)
    (x : Service) :
    x ∈ initBaseServices t s ↔
      x ∈ s ∨ (t ≠ LocationType.derelict ∧
        (x = Service.comms ∨ x = Service.jobs)) := by
  simp only [initBaseServices]
  split_ifs with h <;> simp [h] <;> tauto

/-- Membership through the wealth-based step. -/
theorem mem_initWealthServices (w : Int) (s : Finset Service) (x : Service) :
    x ∈ initWealthServices w s ↔
      x ∈ s ∨ (3 ≤ w ∧ (x = Service.fuel ∨ x = Service.shops)) ∨
      (5 ≤ w ∧ (x = Service.repairs ∨ x = Service.medical)) ∨
      (7 ≤ w ∧ (x = Service.bank ∨ x = Service.upgradesSvc)) := by
  simp only [initWealthServices, mem_condInsert2]
  tauto

/-- Membership through the type-specific step. -/
theorem mem_initTypeServices (t : LocationType) (w : Int) (s : Finset Service)
    (x : Service) :
    x ∈ initTypeServices t w s ↔
      x ∈ s ∨
      (t = LocationType.colony ∧
        (x = Service.homes ∨ (6 ≤ w ∧ x = Service.shipyard))) ∨
      (t = LocationType.space_station ∧
        (x = Service.fuel ∨ x = Service.repairs ∨
          (8 ≤ w ∧ x = Service.federal_supplies))) ∨
      (t = LocationType.outpost ∧ w ≤ 4 ∧ x = Service.black_market) := by
  by_cases h1 : t = LocationType.colony
  · simp only [initTypeServices]
    rw [if_pos h1]
    simp only [mem_condInsert1, Finset.mem_insert]
    simp [h1]
    tauto
  · by_cases h2 : t = LocationType.space_station
    · simp only [initTypeServices]
      rw [if_neg h1, if_pos h2]
      simp only [mem_condInsert1, Finset.mem_insert]
      simp [h1, h2]
      tauto
    · by_cases h3 : t = LocationType.outpost
      · simp only [initTypeServices]
        rw [if_neg h1, if_neg h2, if_pos h3]
        simp only [mem_condInsert1]
        simp [h1, h2, h3]
      · simp only [initTypeServices]
        rw [if_neg h1, if_neg h2, if_neg h3]
        simp [h1, h2, h3]

/-- Propositional shape of `mem_initServices` with the service predicates
abstracted. -/
theorem initServices_or_shape (a b c t : Prop) :
    ((a ∨ b) ∨ c) ∨ t ↔ a ∨ ((False ∨ b) ∨ c) ∨ t := by
  tauto

/-- Service initialization adds to the current set: membership in the result
is membership in the base set or in the freshly derived set. -/
theorem mem_initServices (s0 : Finset Service) (t : LocationType) (w : Int)
    (x : Service) :
    x ∈ initServices s0 t w ↔ x ∈ s0 ∨ x ∈ initServices ∅ t w := by
  simp only [initServices, mem_initTypeServices, mem_initWealthServices,
    mem_initBaseServices, Finset.not_mem_empty]
  exact initServices_or_shape _ _ _ _

set_option maxHeartbeats 1000000 in
/-- The comms service is in a freshly derived service set exactly for
non-derelict location types. -/
theorem comms_mem_initServices (t : LocationType) (w : Int) :
    Service.comms ∈ initServices ∅ t w ↔ t ≠ LocationType.derelict := by
  simp [initServices, mem_initTypeServices, mem_initWealthServices,
    mem_initBaseServices]

/-- The tracked `is_derelict` write touches only that flag and the channel. -/
theorem setIsDerelict_frame (l : Location) (v : Bool) (now : Nat) :
    (l.setIsDerelict v now).services = l.services ∧
    (l.setIsDerelict v now).location_type = l.location_type ∧
    (l.setIsDerelict v now).wealth_level = l.wealth_level ∧
    (l.setIsDerelict v now).population = l.population := by
  simp only [Location.setIsDerelict]
  split_ifs <;> exact ⟨rfl, rfl, rfl, rfl⟩

/-- The tracked population write stores the requested value and touches
neither the services nor the type and wealth. -/
theorem setPopulation_frame (l : Location) (v : Int) (now : Nat) :
    (l.setPopulation v now).services = l.services ∧
    (l.setPopulation v now).location_type = l.location_type ∧
    (l.setPopulation v now).wealth_level = l.wealth_level ∧
    (l.setPopulation v now).population = v := by
  simp only [Location.setPopulation]
  split_ifs with h
  · exact ⟨rfl, rfl, rfl, h.symm⟩
  · exact ⟨rfl, rfl, rfl, rfl⟩

/-- The removal loop of `set_derelict`, seen as one operation: only the
service set and the channel change. -/
theorem stripServices_frame (loc : Location) :
    (stripServices loc).location_type = loc.location_type ∧
    (stripServices loc).wealth_level = loc.wealth_level ∧
    (stripServices loc).population = loc.population := by
  exact stripFold_frame serviceList loc

/-- The description update touches neither the services, the population, nor
the type and wealth. -/
theorem derelictDescribe_frame (l3 : Location) :
    (derelictDescribe l3).services = l3.services ∧
    (derelictDescribe l3).population = l3.population ∧
    (derelictDescribe l3).location_type = l3.location_type ∧
    (derelictDescribe l3).wealth_level = l3.wealth_level := by
  simp only [derelictDescribe]
  split_ifs <;> exact ⟨rfl, rfl, rfl, rfl⟩

/-- Effect of `set_derelict(True)` on the modeled location fields. -/
theorem setDerelict_true_fields (l : Location) (n1 : Nat) :
    (∀ x : Service, x ∈ (setDerelict l true n1).services ↔
      x ∈ l.services ∧ x = Service.comms) ∧
    (setDerelict l true n1).population = 0 ∧
    (setDerelict l true n1).location_type = l.location_type ∧
    (setDerelict l true n1).wealth_level = l.wealth_level := by
  have hred : setDerelict l true n1 =
      derelictDescribe ((stripServices (l.setIsDerelict true n1)).setPopulation 0 n1) := by
    simp [setDerelict]
  rw [hred]
  obtain ⟨dd1, dd2, dd3, dd4⟩ := derelictDescribe_frame
    ((stripServices (l.setIsDerelict true n1)).setPopulation 0 n1)
  obtain ⟨sp1, sp2, sp3, sp4⟩ := setPopulation_frame
    (stripServices (l.setIsDerelict true n1)) 0 n1
  obtain ⟨ss1, ss2, ss3⟩ := stripServices_frame (l.setIsDerelict true n1)
  obtain ⟨sd1, sd2, sd3, sd4⟩ := setIsDerelict_frame l true n1
  refine ⟨fun x => ?_, ?_, ?_, ?_⟩
  · rw [dd1, sp1, stripServices, stripFold_mem, sd1]
    simp [mem_serviceList x]
  · rw [dd2, sp4]
  · rw [dd3, sp2, ss1, sd2]
  · rw [dd4, sp3, ss2, sd3]

/-- Effect of `set_derelict(False)` on the service set: services are
re-derived by `_initialize_services` on top of the current set. -/
theorem setDerelict_false_services (l : Location) (n2 : Nat) :
    (setDerelict l false n2).services =
      initServices l.services l.location_type l.wealth_level := by
  have hred : setDerelict l false n2 =
      { l.setIsDerelict false n2 with
        services := initServices (l.setIsDerelict false n2).services
          (l.setIsDerelict false n2).location_type
          (l.setIsDerelict false n2).wealth_level } := by
    simp [setDerelict]
  rw [hred]
  obtain ⟨h1, h2, h3, _⟩ := setIsDerelict_frame l false n2
  show initServices (l.setIsDerelict false n2).services
      (l.setIsDerelict false n2).location_type
      (l.setIsDerelict false n2).wealth_level = _
  rw [h1, h2, h3]

attribute [irreducible] stripServices setDerelict

/-- C7 counterexample: on a freshly constructed location of type `derelict`
(wealth 5), `set_derelict(True)` leaves the service set empty — it does not
contain the communications service at all, because `_initialize_services`
adds comms only to non-derelict location types and the removal loop never
adds it. -/
theorem C7_derelict_type_counterexample :
    (setDerelict (locationNew "Wreck" LocationType.derelict 5 1000 none 0)
        true 1).services = ∅ ∧
    (setDerelict (locationNew "Wreck" LocationType.derelict 5 1000 none 0)
        true 1).services ≠ {Service.comms} := by
  obtain ⟨hmem, -, -, -⟩ := setDerelict_true_fields
    (locationNew "Wreck" LocationType.derelict 5 1000 none 0) 1
  have hempty : (setDerelict
      (locationNew "Wreck" LocationType.derelict 5 1000 none 0)
      true 1).services = ∅ := by
    ext x
    rw [hmem x]
    simp only [Finset.not_mem_empty, iff_false]
    rintro ⟨hxin, rfl⟩
    have hc : Service.comms ∈ initServices ∅ LocationType.derelict 5 := hxin
    rw [comms_mem_initServices] at hc
    exact hc rfl
  refine ⟨hempty, ?_⟩
  rw [hempty]
  exact (by decide : (∅ : Finset Service) ≠ {Service.comms})

set_option maxHeartbeats 2000000 in
/-- C7 amended: for every freshly constructed location, `set_derelict(True)`
leaves a service set that holds nothing but comms — exactly `{comms}` when
the location type is not `derelict` (for a derelict-typed location the set is
empty, since comms was never present) — and zeroes the population; a
subsequent `set_derelict(False)` restores the service set of a freshly
constructed location with the same type and wealth. -/
theorem C7_set_derelict_amended (name : String) (t : LocationType)
    (w pop : Int) (desc : Option String) (now n1 n2 : Nat) :
    ((setDerelict (locationNew name t w pop desc now) true n1).services ⊆
        {Service.comms}) ∧
    (t ≠ LocationType.derelict →
      (setDerelict (locationNew name t w pop desc now) true n1).services =
        {Service.comms}) ∧
    ((setDerelict (locationNew name t w pop desc now) true n1).population = 0) ∧
    ((setDerelict (setDerelict (locationNew name t w pop desc now) true n1)
        false n2).services =
      (locationNew name t w pop desc now).services) := by
  obtain ⟨hmem, hpop, htype, hwealth⟩ :=
    setDerelict_true_fields (locationNew name t w pop desc now) n1
  have hfreshsvc : (locationNew name t w pop desc now).services =
      initServices ∅ t w := rfl
  refine ⟨?_, ?_, hpop, ?_⟩
  · intro x hx
    rcases (hmem x).mp hx with ⟨_, hxc⟩
    simp [hxc]
  · intro ht
    ext x
    rw [hmem x, Finset.mem_singleton]
    constructor
    · exact fun h => h.2
    · intro h
      subst h
      exact ⟨by rw [hfreshsvc]; exact (comms_mem_initServices t w).mpr ht, rfl⟩
  · rw [setDerelict_false_services, htype, hwealth]
    have hlt : (locationNew name t w pop desc now).location_type = t := rfl
    have hlw : (locationNew name t w pop desc now).wealth_level = w := rfl
    rw [hlt, hlw, hfreshsvc]
    ext x
    rw [mem_initServices]
    constructor
    · rintro (hx | hx)
      · rcases (hmem x).mp hx with ⟨hxin, _⟩
        rw [hfreshsvc] at hxin
        exact hxin
      · exact hx
    · exact Or.inr

/-- C7 witness: a wealth-3 outpost loses everything but comms and its
population on `set_derelict(True)`, and recovers exactly the fresh service
set on `set_derelict(False)`. -/
theorem C7_set_derelict_amended_witness :
    ((setDerelict (locationNew "Outpost Theta" LocationType.outpost 3 500 none 0)
        true 1).services = {Service.comms}) ∧
    ((setDerelict (locationNew "Outpost Theta" LocationType.outpost 3 500 none 0)
        true 1).population = 0) ∧
    ((setDerelict
        (setDerelict (locationNew "Outpost Theta" LocationType.outpost 3 500 none 0)
          true 1) false 2).services =
      (locationNew "Outpost Theta" LocationType.outpost 3 500 none 0).services) := by
  have h := C7_set_derelict_amended "Outpost Theta" LocationType.outpost 3 500
    none 0 1 2
  exact ⟨h.2.1 (by decide), h.2.2.1, h.2.2.2⟩

/-- C8: evaluation at the failing input.  An alive dynamic NPC that is
already traveling toward destination id 0 (destination, start time and
duration all set) with fuel 50 calls `start_travel(7, 120s)`.  The claim
(and npc.py's own comment on line 519) requires failure with the travel
state unchanged, but the guard `if not self.is_alive or
self.destination_location` tests Python truthiness, and the integer 0 is
falsy: the call returns True, overwrites the destination with 7, and burns
fuel for the new trip (120 s = 2 fuel, 50 - 2 = 48). -/
theorem C8_start_travel_destination_zero_bug :
    (startTravel
        { name := "Darius", age := 30, alignment := Alignment.neutral
        , hp := 100, max_hp := 100, is_alive := true, credits := 500
        , callsign := "Trader-101", ship_name := "SS Darius"
        , ship_type := "freighter", current_location := some 3
        , destination_location := some 0, travel_start_time := some 0
        , travel_duration := some 600, ship_hull := 100, max_ship_hull := 100
        , ship_fuel := 50, max_ship_fuel := 100, cargo_capacity := 100
        , ai_behavior := "trader", ev := EvState.fresh 0 }
        7 120 5).1 = true ∧
    (startTravel
        { name := "Darius", age := 30, alignment := Alignment.neutral
        , hp := 100, max_hp := 100, is_alive := true, credits := 500
        , callsign := "Trader-101", ship_name := "SS Darius"
        , ship_type := "freighter", current_location := some 3
        , destination_location := some 0, travel_start_time := some 0
        , travel_duration := some 600, ship_hull := 100, max_ship_hull := 100
        , ship_fuel := 50, max_ship_fuel := 100, cargo_capacity := 100
        , ai_behavior := "trader", ev := EvState.fresh 0 }
        7 120 5).2.destination_location = some 7 ∧
    (startTravel
        { name := "Darius", age := 30, alignment := Alignment.neutral
        , hp := 100, max_hp := 100, is_alive := true, credits := 500
        , callsign := "Trader-101", ship_name := "SS Darius"
        , ship_type := "freighter", current_location := some 3
        , destination_location := some 0, travel_start_time := some 0
        , travel_duration := some 600, ship_hull := 100, max_ship_hull := 100
        , ship_fuel := 50, max_ship_fuel := 100, cargo_capacity := 100
        , ai_behavior := "trader", ev := EvState.fresh 0 }
        7 120 5).2.ship_fuel = 48 := by
  exact ⟨rfl, rfl, rfl⟩

end Galaxy
